import Mathlib

/-!
# PolyParser (src/main.cpp) — verification of the binary codec layer

Shallow embedding of the PolyParser codecs:

* Byte streams are `List Nat` (each element a byte value `< 256`).
* C++ `float` fields are represented by their 32-bit IEEE-754 bit
  patterns (a `Nat < 2^32`): the layout / bridge / slot codecs only move
  floats between memory and the wire unchanged, so the bit pattern is the
  faithful representation.  The single place the decoder computes on a
  float bit pattern (`std::abs` on ramp heights) is the IEEE sign-bit
  clear, which is exact on patterns.  The one float-valued correction
  function (`Deserializer::fixPistonNormalizedValue`) is kept abstract at
  the bit-pattern level as a parameter `fixP : Nat → Nat` of the decoders
  (both C++ decoders call the same static function, so one shared
  parameter is faithful); its arithmetic content is modelled separately
  over `ℚ`.
* C++ `std::string` values are byte lists (`Str`).
* Colors are stored by the codec as one byte per channel; the in-memory
  C++ `Color` holds `k / 255.0f` per channel, which is in bijection with
  the byte `k` (the float computation `(uint8)((k/255.0f)*255.0f) = k`
  holds for every `k < 256`), so the embedding keeps the byte.
* The global abort counter `unusualNumbers` (initialised to 1 in the
  source) is threaded through every codec, and `exit(1)` paths are
  modelled as `Option.none` / `Except.error`.
-/

/-- A byte string (C++ `std::string` contents as raw bytes). -/
abbrev Str := List Nat

/-- Little-endian byte decomposition, `k` bytes. -/
def leBytes : Nat → Nat → List Nat
  | 0, _ => []
  | k + 1, n => n % 256 :: leBytes k (n / 256)

/-- Value of a little-endian byte list. -/
def natOfLE : List Nat → Nat
  | [] => 0
  | b :: bs => b + 256 * natOfLE bs

/-- Two's-complement reading of an unsigned 32-bit value. -/
def asInt32 (n : Nat) : Int :=
  if n < 2147483648 then (n : Int) else (n : Int) - 4294967296

/-- Two's-complement reading of an unsigned 16-bit value. -/
def asInt16 (n : Nat) : Int :=
  if n < 32768 then (n : Int) else (n : Int) - 65536

/-- Two's-complement reading of an unsigned 8-bit value. -/
def asInt8 (n : Nat) : Int :=
  if n < 128 then (n : Int) else (n : Int) - 256

/-- The 4 little-endian bytes of an `int32_t` (as written by
`file.write(reinterpret_cast<char*>(&value), 4)`). -/
def int32Bytes (v : Int) : List Nat :=
  leBytes 4 (v % 4294967296).toNat

/-- The 2 little-endian bytes of an `int16_t`/`uint16_t`. -/
def int16Bytes (v : Int) : List Nat :=
  leBytes 2 (v % 65536).toNat

/-- Split a list into exactly `k` leading elements and the rest;
`none` when fewer than `k` elements remain. -/
def takeExact : Nat → List Nat → Option (List Nat × List Nat)
  | 0, s => some ([], s)
  | _ + 1, [] => none
  | k + 1, b :: t => (takeExact k t).map fun p => (b :: p.1, p.2)

/-- `Utils::ensureReasonable` (src/main.cpp:545-561): envelope check over
the global `unusualNumbers` counter `c`; `exit(1)` is `none`.  The error
branches (outside `[min, max]`) increment the counter, the warn branches
(outside `[warnMin, warnMax]` but inside the hard bounds) do not. -/
def ensureReasonable (value mn mx warnMin warnMax : Int) (c : Nat) : Option Nat :=
  if value < mn then (if 3 ≤ c then none else some (c + 1))
  else if mx < value then (if 3 ≤ c then none else some (c + 1))
  else if value < warnMin then (if 3 ≤ c then none else some c)
  else if warnMax < value then (if 3 ≤ c then none else some c)
  else some c

/-- `Utils::intc` applies `ensureReasonable` with its default envelope. -/
def intcCheck (value : Int) (c : Nat) : Option Nat :=
  ensureReasonable value (-1000) 10000 0 4096 c

/-- State-option monad of the stream decoders (`Deserializer` and
`SimpleBridgeDeserializer`): remaining input bytes plus the global
`unusualNumbers` counter; `none` models `exit(1)` and reads past the
end of the input. -/
def DecM (α : Type) : Type := List Nat → Nat → Option (α × List Nat × Nat)

instance : Monad DecM where
  pure a := fun s c => some (a, s, c)
  bind m f := fun s c =>
    match m s c with
    | some (a, s', c') => f a s' c'
    | none => none

/-- Failure (`exit(1)`). -/
def dfail {α : Type} : DecM α := fun _ _ => none

/-- A version-gated read: `if b then t else e` as a combinator, so that
gated fields stay single decoder steps. -/
def condD {α : Type} (b : Prop) [Decidable b] (t e : DecM α) : DecM α :=
  if b then t else e

/-- Writer/state-option monad of the `Serializer`: accumulated output
bytes plus the `unusualNumbers` counter; `none` models `exit(1)`. -/
def EncM (α : Type) : Type := Nat → Option (α × List Nat × Nat)

instance : Monad EncM where
  pure a := fun c => some (a, [], c)
  bind m f := fun c =>
    match m c with
    | some (a, out₁, c') =>
      match f a c' with
      | some (b, out₂, c'') => some (b, out₁ ++ out₂, c'')
      | none => none
    | none => none

/-- Emit raw bytes (`std::ofstream::write`). -/
def emit (bs : List Nat) : EncM Unit := fun c => some ((), bs, c)

/-- Serializer failure (`exit(1)`). -/
def efail {α : Type} : EncM α := fun _ => none

namespace Deserializer

/-- `Deserializer::readBytes` (read `k` raw bytes from the stream). -/
def readBytes (k : Nat) : DecM (List Nat) := fun s c =>
  (takeExact k s).map fun p => (p.1, p.2, c)

/-- Read a single raw byte (`Deserializer::readByte`). -/
def readByte : DecM Nat := fun s c =>
  match s with
  | [] => none
  | b :: t => some (b, t, c)

/-- `Deserializer::readInt8`. -/
def readInt8 : DecM Int := do
  let b ← readByte
  pure (asInt8 b)

/-- `Deserializer::readBool` (`readInt8() != 0`). -/
def readBool : DecM Bool := do
  let v ← readInt8
  pure (v != 0)

/-- `Deserializer::readInt16`. -/
def readInt16 : DecM Int := do
  let bs ← readBytes 2
  pure (asInt16 (natOfLE bs))

/-- `Deserializer::readUInt16`. -/
def readUInt16 : DecM Nat := do
  let bs ← readBytes 2
  pure (natOfLE bs)

/-- `Deserializer::readInt32`. -/
def readInt32 : DecM Int := do
  let bs ← readBytes 4
  pure (asInt32 (natOfLE bs))

/-- `Deserializer::readFloat`: a float is carried as its 32-bit
IEEE-754 bit pattern. -/
def readFloat : DecM Nat := do
  let bs ← readBytes 4
  pure (natOfLE bs)

/-- `Deserializer::readString`: unsigned 16-bit length prefix followed by
that many raw bytes. -/
def readString : DecM Str := do
  let length ← readUInt16
  readBytes length

/-- `Deserializer::readByteArray`: 32-bit length, then one byte per
element; a non-positive length is fatal (`exit(1)`). -/
def readByteArray : DecM (List Nat) := do
  let length ← readInt32
  if 0 < length then readBytes length.toNat else dfail

/-- Lift `Utils::ensureReasonable` into the decoder. -/
def checkD (value mn mx warnMin warnMax : Int) : DecM Unit := fun s c =>
  (ensureReasonable value mn mx warnMin warnMax c).map fun c' => ((), s, c')

/-- `Utils::intc` as called from decoder log lines. -/
def intcD (value : Int) : DecM Unit :=
  checkD value (-1000) 10000 0 4096

/-- `Deserializer::getVersion`: negative raw versions are negated and
flag the layout as modded. -/
def getVersion : DecM (Int × Bool) := do
  let version ← readInt32
  if version < 0 then pure (-version, true) else pure (version, false)

/-- `Deserializer::getStubKey`. -/
def getStubKey : DecM Str := readString

/-- Run a decoder a fixed number of times, collecting the results
(the `for (int i = 0; i < count; i++) push_back(...)` loops; a negative
`count` runs zero times, matching the C++ loop). -/
def replicateD {α : Type} : Nat → DecM α → DecM (List α)
  | 0, _ => pure []
  | n + 1, d => do
    let x ← d
    let xs ← replicateD n d
    pure (x :: xs)

end Deserializer

/-! ## Data model (src/main.cpp:161-460)

Enum-typed fields (`BridgeMaterialType`, `SplitJointPart`,
`SplitJointState`, `StrengthMethod`, `TerrainIslandType`, `SplineType`)
are carried as the raw `Int` the codec reads/writes for them.  Fields of
C++ type `float` hold the 32-bit IEEE bit pattern. -/

structure Vec3 where
  x : Nat
  y : Nat
  z : Nat
deriving DecidableEq

structure Vec2 where
  x : Nat
  y : Nat
deriving DecidableEq

structure Quat where
  x : Nat
  y : Nat
  z : Nat
  w : Nat
deriving DecidableEq

/-- A codec color: one byte per channel (the in-memory C++ float
`k / 255.0f` is in bijection with the byte `k`). -/
structure Color where
  r : Nat
  g : Nat
  b : Nat
deriving DecidableEq

structure BridgeJoint where
  pos : Vec3
  is_anchor : Bool
  is_split : Bool
  guid : Str
deriving DecidableEq

structure BridgeEdge where
  material_type : Int
  node_a_guid : Str
  node_b_guid : Str
  joint_a_part : Int
  joint_b_part : Int
  guid : Str
deriving DecidableEq

structure BridgeSpring where
  normalized_value : Nat
  node_a_guid : Str
  node_b_guid : Str
  guid : Str
deriving DecidableEq

structure BridgeSplitJoint where
  guid : Str
  state : Int
deriving DecidableEq

structure Piston where
  normalized_value : Nat
  node_a_guid : Str
  node_b_guid : Str
  guid : Str
deriving DecidableEq

structure HydraulicPhase where
  time_delay : Nat
  guid : Str
deriving DecidableEq

structure ZAxisVehicle where
  pos : Vec2
  prefab_name : Str
  guid : Str
  time_delay : Nat
  speed : Nat
  rot : Quat
  rotation_degrees : Nat
deriving DecidableEq

structure Vehicle where
  display_name : Str
  pos : Vec2
  rot : Quat
  prefab_name : Str
  target_speed : Nat
  mass : Nat
  braking_force_multiplier : Nat
  strength_method : Int
  acceleration : Nat
  max_slope : Nat
  desired_acceleration : Nat
  shocks_multiplier : Nat
  rotation_degrees : Nat
  time_delay : Nat
  idle_on_downhill : Bool
  flipped : Bool
  ordered_checkpoints : Bool
  guid : Str
  checkpoint_guids : List Str
deriving DecidableEq

structure VehicleStopTrigger where
  pos : Vec2
  rot : Quat
  height : Nat
  rotation_degrees : Nat
  flipped : Bool
  prefab_name : Str
  stop_vehicle_guid : Str
deriving DecidableEq

structure ThemeObject where
  pos : Vec2
  prefab_name : Str
  unknown_value : Bool
deriving DecidableEq

structure EventUnit where
  guid : Str
deriving DecidableEq

structure EventStage where
  units : List EventUnit
deriving DecidableEq

structure EventTimeline where
  checkpoint_guid : Str
  stages : List EventStage
deriving DecidableEq

structure Checkpoint where
  pos : Vec2
  prefab_name : Str
  vehicle_guid : Str
  vehicle_restart_phase_guid : Str
  trigger_timeline : Bool
  stop_vehicle : Bool
  reverse_vehicle_on_restart : Bool
  guid : Str
deriving DecidableEq

structure Platform where
  pos : Vec2
  width : Nat
  height : Nat
  flipped : Bool
  solid : Bool
deriving DecidableEq

structure HydraulicsControllerPhase where
  hydraulics_phase_guid : Str
  piston_guids : List Str
  bridge_split_joints : List BridgeSplitJoint
  disable_new_additions : Bool
deriving DecidableEq

structure TerrainIsland where
  pos : Vec3
  prefab_name : Str
  height_added : Nat
  right_edge_water_height : Nat
  terrain_island_type : Int
  variant_index : Int
  flipped : Bool
  lock_position : Bool
deriving DecidableEq

structure Ramp where
  pos : Vec2
  control_points : List Vec2
  height : Nat
  num_segments : Int
  spline_type : Int
  flipped_vertical : Bool
  flipped_horizontal : Bool
  hide_legs : Bool
  flipped_legs : Bool
  line_points : List Vec2
deriving DecidableEq

structure VehicleRestartPhase where
  time_delay : Nat
  guid : Str
  vehicle_guid : Str
deriving DecidableEq

structure FlyingObject where
  pos : Vec3
  scale : Vec3
  prefab_name : Str
deriving DecidableEq

structure Rock where
  pos : Vec3
  scale : Vec3
  prefab_name : Str
  flipped : Bool
deriving DecidableEq

structure WaterBlock where
  pos : Vec3
  width : Nat
  height : Nat
  lock_position : Bool
deriving DecidableEq

structure Bridge where
  version : Int
  joints : List BridgeJoint
  edges : List BridgeEdge
  springs : List BridgeSpring
  pistons : List Piston
  anchors : List BridgeJoint
  phases : List HydraulicsControllerPhase
deriving DecidableEq

structure Budget where
  cash : Int
  road : Int
  wood : Int
  steel : Int
  hydraulics : Int
  rope : Int
  cable : Int
  bungee_rope : Int
  spring : Int
  allow_wood : Bool
  allow_steel : Bool
  allow_hydraulics : Bool
  allow_rope : Bool
  allow_cable : Bool
  allow_spring : Bool
  allow_reinforced_road : Bool
deriving DecidableEq

structure Settings where
  hydraulics_controller_enabled : Bool
  unbreakable : Bool
deriving DecidableEq

structure CustomShape where
  pos : Vec3
  rot : Quat
  scale : Vec3
  flipped : Bool
  dynamic : Bool
  collides_with_road : Bool
  collides_with_nodes : Bool
  collides_with_split_nodes : Bool
  rotation_degrees : Nat
  color : Color
  mass : Nat
  bounciness : Nat
  pin_motor_strength : Nat
  pin_target_velocity : Nat
  points_local_space : List Vec2
  static_pins : List Vec3
  dynamic_anchor_guids : List Str
deriving DecidableEq

structure Workshop where
  id : Str
  leaderboard_id : Str
  title : Str
  description : Str
  autoplay : Bool
  tags : List Str
deriving DecidableEq

structure SupportPillar where
  pos : Vec3
  scale : Vec3
  prefab_name : Str
deriving DecidableEq

structure Pillar where
  pos : Vec3
  height : Nat
  prefab_name : Str
deriving DecidableEq

structure ModInfo where
  name : Str
  version : Str
  settings : Str
deriving DecidableEq

structure ModSaveData where
  data : List Nat
  name : Str
  version : Str
deriving DecidableEq

structure ModData where
  mods : List ModInfo
  mod_save_data : List ModSaveData
deriving DecidableEq

structure Layout where
  version : Int
  stubKey : Str
  anchors : List BridgeJoint
  phases : List HydraulicPhase
  bridge : Bridge
  zAxisVehicles : List ZAxisVehicle
  vehicles : List Vehicle
  vehicleStopTriggers : List VehicleStopTrigger
  themeObjects_OBSOLETE : List ThemeObject
  eventTimelines : List EventTimeline
  checkpoints : List Checkpoint
  platforms : List Platform
  terrainStretches : List TerrainIsland
  ramps : List Ramp
  vehicleRestartPhases : List VehicleRestartPhase
  flyingObjects : List FlyingObject
  rocks : List Rock
  waterBlocks : List WaterBlock
  budget : Budget
  settings : Settings
  customShapes : List CustomShape
  workshop : Workshop
  supportPillars : List SupportPillar
  pillars : List Pillar
  isModded : Bool
  modData : ModData
deriving DecidableEq

structure SaveSlot where
  version : Int
  physicsVersion : Int
  slotId : Int
  displayName : Str
  fileName : Str
  budget : Int
  lastWriteTimeTicks : Int
  bridge : Bridge
  unlimitedMaterials : Bool
  unlimitedBudget : Bool
  thumbnail : Option (List Nat)
deriving DecidableEq

/-! ## Deserializer (src/main.cpp:616-1651) -/

namespace Deserializer

/-- `Deserializer::readVec3`. -/
def readVec3 : DecM Vec3 := do
  let x ← readFloat
  let y ← readFloat
  let z ← readFloat
  pure { x, y, z }

/-- `Deserializer::readVec2`. -/
def readVec2 : DecM Vec2 := do
  let x ← readFloat
  let y ← readFloat
  pure { x, y }

/-- `Deserializer::readColor`: one raw byte per channel (no alpha on the
wire; the C++ struct stores `byte / 255.0f`, represented here by the
byte itself). -/
def readColor : DecM Color := do
  let r ← readByte
  let g ← readByte
  let b ← readByte
  pure { r, g, b }

/-- `Deserializer::readQuaternion`. -/
def readQuaternion : DecM Quat := do
  let x ← readFloat
  let y ← readFloat
  let z ← readFloat
  let w ← readFloat
  pure { x, y, z, w }

/-- `Deserializer::deserializeAnchor`. -/
def deserializeAnchor : DecM BridgeJoint := do
  let pos ← readVec3
  let is_anchor ← readBool
  let is_split ← readBool
  let guid ← readString
  pure { pos, is_anchor, is_split, guid }

/-- `Deserializer::deserializeAnchors`. -/
def deserializeAnchors : DecM (List BridgeJoint) := do
  let count ← readInt32
  intcD count
  replicateD count.toNat deserializeAnchor

/-- `Deserializer::deserializePhase`. -/
def deserializePhase : DecM HydraulicPhase := do
  let time_delay ← readFloat
  let guid ← readString
  pure { time_delay, guid }

/-- `Deserializer::deserializePhases`. -/
def deserializePhases : DecM (List HydraulicPhase) := do
  let count ← readInt32
  intcD count
  replicateD count.toNat deserializePhase

/-- `Deserializer::deserializeJoint`. -/
def deserializeJoint : DecM BridgeJoint := do
  let pos ← readVec3
  let is_anchor ← readBool
  let is_split ← readBool
  let guid ← readString
  pure { pos, is_anchor, is_split, guid }

/-- `Deserializer::deserializeEdge`: the edge GUID exists on the wire
only from bridge version 11. -/
def deserializeEdge (version : Int) : DecM BridgeEdge := do
  let material_type ← readInt32
  let node_a_guid ← readString
  let node_b_guid ← readString
  let joint_a_part ← readInt32
  let joint_b_part ← readInt32
  let guid ← condD (11 ≤ version) readString (pure [])
  pure { material_type, node_a_guid, node_b_guid, joint_a_part, joint_b_part, guid }

/-- `Deserializer::deserializeSpring`. -/
def deserializeSpring : DecM BridgeSpring := do
  let normalized_value ← readFloat
  let node_a_guid ← readString
  let node_b_guid ← readString
  let guid ← readString
  pure { normalized_value, node_a_guid, node_b_guid, guid }

/-- `Deserializer::deserializePiston`: below bridge version 8 the
normalized value is passed through `fixPistonNormalizedValue`, whose
action on bit patterns is the parameter `fixP`. -/
def deserializePiston (fixP : Nat → Nat) (version : Int) : DecM Piston := do
  let normalized_value ← readFloat
  let node_a_guid ← readString
  let node_b_guid ← readString
  let guid ← readString
  if version < 8 then
    pure { normalized_value := fixP normalized_value, node_a_guid, node_b_guid, guid }
  else
    pure { normalized_value, node_a_guid, node_b_guid, guid }

/-- `Deserializer::deserializeSplitJoint`. -/
def deserializeSplitJoint : DecM BridgeSplitJoint := do
  let guid ← readString
  let state ← readInt32
  pure { guid, state }

/-- `Deserializer::deserializeHydraulicControllerPhase`. -/
def deserializeHydraulicControllerPhase (version : Int) : DecM HydraulicsControllerPhase := do
  let hydraulics_phase_guid ← readString
  let count ← readInt32
  let piston_guids ← replicateD count.toNat readString
  let bridge_split_joints ←
    condD (2 < version)
      (do
        let count2 ← readInt32
        replicateD count2.toNat deserializeSplitJoint)
      (do
        let count2 ← readInt32
        let _ ← replicateD count2.toNat readString
        pure [])
  let disable_new_additions ← condD (9 < version) readBool (pure false)
  pure { hydraulics_phase_guid, piston_guids, bridge_split_joints, disable_new_additions }

/-- `Deserializer::deserializeBridge` (src/main.cpp:1031-1113). -/
def deserializeBridge (fixP : Nat → Nat) : DecM Bridge := do
  let version ← readInt32
  checkD version 0 100 0 50
  intcD version
  if version < 2 then
    pure { version, joints := [], edges := [], springs := [], pistons := [],
           anchors := [], phases := [] }
  else do
    let count ← readInt32
    intcD count
    let joints ← replicateD count.toNat deserializeJoint
    let count2 ← readInt32
    intcD count2
    let edges ← replicateD count2.toNat (deserializeEdge version)
    let springs ←
      condD (7 ≤ version)
        (do
          let count3 ← readInt32
          intcD count3
          replicateD count3.toNat deserializeSpring)
        (pure [])
    let count4 ← readInt32
    intcD count4
    let pistons ← replicateD count4.toNat (deserializePiston fixP version)
    let count5 ← readInt32
    intcD count5
    let phases ← replicateD count5.toNat (deserializeHydraulicControllerPhase version)
    let _ ←
      condD (version = 5)
        (do
          let count6 ← readInt32
          replicateD count6.toNat readString)
        (pure [])
    let anchors ←
      condD (6 ≤ version)
        (do
          let count7 ← readInt32
          intcD count7
          replicateD count7.toNat deserializeAnchor)
        (pure [])
    let _ ← condD (4 ≤ version ∧ version < 9) readBool (pure false)
    pure { version, joints, edges, springs, pistons, anchors, phases }

/-- `Deserializer::deserializeZAxisVehicle`. -/
def deserializeZAxisVehicle (version : Int) : DecM ZAxisVehicle := do
  let pos ← readVec2
  let prefab_name ← readString
  let guid ← readString
  let time_delay ← readFloat
  let speed ← condD (8 ≤ version) readFloat (pure 0)
  if 26 ≤ version then do
    let rot ← readQuaternion
    let rotation_degrees ← readFloat
    pure { pos, prefab_name, guid, time_delay, speed, rot, rotation_degrees }
  else
    pure { pos, prefab_name, guid, time_delay, speed,
           rot := { x := 0, y := 0, z := 0, w := 0 }, rotation_degrees := 0 }

/-- `Deserializer::deserializeZAxisVehicles`. -/
def deserializeZAxisVehicles (version : Int) : DecM (List ZAxisVehicle) := do
  let count ← readInt32
  intcD count
  replicateD count.toNat (deserializeZAxisVehicle version)

/-- `Deserializer::deserializeVehicle`. -/
def deserializeVehicle : DecM Vehicle := do
  let display_name ← readString
  let pos ← readVec2
  let rot ← readQuaternion
  let prefab_name ← readString
  let target_speed ← readFloat
  let mass ← readFloat
  let braking_force_multiplier ← readFloat
  let strength_method ← readInt32
  let acceleration ← readFloat
  let max_slope ← readFloat
  let desired_acceleration ← readFloat
  let shocks_multiplier ← readFloat
  let rotation_degrees ← readFloat
  let time_delay ← readFloat
  let idle_on_downhill ← readBool
  let flipped ← readBool
  let ordered_checkpoints ← readBool
  let guid ← readString
  let count ← readInt32
  let checkpoint_guids ← replicateD count.toNat readString
  pure { display_name, pos, rot, prefab_name, target_speed, mass,
         braking_force_multiplier, strength_method, acceleration, max_slope,
         desired_acceleration, shocks_multiplier, rotation_degrees, time_delay,
         idle_on_downhill, flipped, ordered_checkpoints, guid, checkpoint_guids }

/-- `Deserializer::deserializeVehicles`. -/
def deserializeVehicles : DecM (List Vehicle) := do
  let count ← readInt32
  intcD count
  replicateD count.toNat deserializeVehicle

/-- `Deserializer::deserializeVehicleStopTrigger`. -/
def deserializeVehicleStopTrigger : DecM VehicleStopTrigger := do
  let pos ← readVec2
  let rot ← readQuaternion
  let height ← readFloat
  let rotation_degrees ← readFloat
  let flipped ← readBool
  let prefab_name ← readString
  let stop_vehicle_guid ← readString
  pure { pos, rot, height, rotation_degrees, flipped, prefab_name, stop_vehicle_guid }

/-- `Deserializer::deserializeVehicleStopTriggers`. -/
def deserializeVehicleStopTriggers : DecM (List VehicleStopTrigger) := do
  let count ← readInt32
  intcD count
  replicateD count.toNat deserializeVehicleStopTrigger

/-- `Deserializer::deserializeThemeObject_OBSOLETE`. -/
def deserializeThemeObject : DecM ThemeObject := do
  let pos ← readVec2
  let prefab_name ← readString
  let unknown_value ← readBool
  pure { pos, prefab_name, unknown_value }

/-- `Deserializer::deserializeThemeObjects_OBSOLETE`. -/
def deserializeThemeObjects : DecM (List ThemeObject) := do
  let count ← readInt32
  intcD count
  replicateD count.toNat deserializeThemeObject

/-- `Deserializer::deserializeEventUnit`: before version 7 three strings
are read and the last non-empty one is kept (starting from the empty
default). -/
def deserializeEventUnit (version : Int) : DecM EventUnit := do
  if 7 ≤ version then do
    let guid ← readString
    pure { guid }
  else do
    let t1 ← readString
    let t2 ← readString
    let t3 ← readString
    let g1 : Str := if t1 ≠ [] then t1 else []
    let g2 : Str := if t2 ≠ [] then t2 else g1
    let g3 : Str := if t3 ≠ [] then t3 else g2
    pure { guid := g3 }

/-- `Deserializer::deserializeEventStage`. -/
def deserializeEventStage (version : Int) : DecM EventStage := do
  let count ← readInt32
  let units ← replicateD count.toNat (deserializeEventUnit version)
  pure { units }

/-- `Deserializer::deserializeEventTimeline`. -/
def deserializeEventTimeline (version : Int) : DecM EventTimeline := do
  let checkpoint_guid ← readString
  let count ← readInt32
  let stages ← replicateD count.toNat (deserializeEventStage version)
  pure { checkpoint_guid, stages }

/-- `Deserializer::deserializeEventTimelines`. -/
def deserializeEventTimelines (version : Int) : DecM (List EventTimeline) := do
  let count ← readInt32
  intcD count
  replicateD count.toNat (deserializeEventTimeline version)

/-- `Deserializer::deserializeCheckpoint`. -/
def deserializeCheckpoint : DecM Checkpoint := do
  let pos ← readVec2
  let prefab_name ← readString
  let vehicle_guid ← readString
  let vehicle_restart_phase_guid ← readString
  let trigger_timeline ← readBool
  let stop_vehicle ← readBool
  let reverse_vehicle_on_restart ← readBool
  let guid ← readString
  pure { pos, prefab_name, vehicle_guid, vehicle_restart_phase_guid,
         trigger_timeline, stop_vehicle, reverse_vehicle_on_restart, guid }

/-- `Deserializer::deserializeCheckpoints`. -/
def deserializeCheckpoints : DecM (List Checkpoint) := do
  let count ← readInt32
  intcD count
  replicateD count.toNat deserializeCheckpoint

/-- `Deserializer::deserializePlatform`: from version 22 a solid flag,
below that a discarded trailing int. -/
def deserializePlatform (version : Int) : DecM Platform := do
  let pos ← readVec2
  let width ← readFloat
  let height ← readFloat
  let flipped ← readBool
  if 22 ≤ version then do
    let solid ← readBool
    pure { pos, width, height, flipped, solid }
  else do
    let _ ← readInt32
    pure { pos, width, height, flipped, solid := false }

/-- `Deserializer::deserializePlatforms`. -/
def deserializePlatforms (version : Int) : DecM (List Platform) := do
  let count ← readInt32
  intcD count
  replicateD count.toNat (deserializePlatform version)

/-- `Deserializer::deserializeTerrainStretch`. -/
def deserializeTerrainStretch (version : Int) : DecM TerrainIsland := do
  let pos ← readVec3
  let prefab_name ← readString
  let height_added ← readFloat
  let right_edge_water_height ← readFloat
  let terrain_island_type ← readInt32
  let variant_index ← readInt32
  let flipped ← readBool
  let lock_position ← condD (6 ≤ version) readBool (pure false)
  pure { pos, prefab_name, height_added, right_edge_water_height,
         terrain_island_type, variant_index, flipped, lock_position }

/-- `Deserializer::deserializeTerrainIslands`. -/
def deserializeTerrainIslands (version : Int) : DecM (List TerrainIsland) := do
  let count ← readInt32
  intcD count
  replicateD count.toNat (deserializeTerrainStretch version)

/-- `std::abs` on a float clears the IEEE-754 sign bit (bit 31). -/
def absPattern (p : Nat) : Nat := p % 2147483648

/-- `Deserializer::deserializeRamp`.  The `&&` in
`ramp.hide_legs = (version >= 23 && this->readBool())` short-circuits,
so no byte is consumed below version 23. -/
def deserializeRamp (version : Int) : DecM Ramp := do
  let pos ← readVec2
  let count ← readInt32
  let control_points ← replicateD count.toNat readVec2
  let h ← readFloat
  let height := absPattern h
  let num_segments ← readInt32
  let spline_type ← readInt32
  let flipped_vertical ← readBool
  let flipped_horizontal ← readBool
  let hide_legs ← condD (23 ≤ version) readBool (pure false)
  let flipped_legs ←
    condD (25 ≤ version) readBool
      (condD (22 ≤ version)
        (do
          let _ ← readBool
          pure false)
        (do
          let _ ← readInt32
          pure false))
  let line_points ←
    condD (13 ≤ version)
      (do
        let count2 ← readInt32
        replicateD count2.toNat readVec2)
      (pure [])
  pure { pos, control_points, height, num_segments, spline_type,
         flipped_vertical, flipped_horizontal, hide_legs, flipped_legs, line_points }

/-- `Deserializer::deserializeRamps`. -/
def deserializeRamps (version : Int) : DecM (List Ramp) := do
  let count ← readInt32
  intcD count
  replicateD count.toNat (deserializeRamp version)

/-- `Deserializer::deserializeVehicleRestartPhase`. -/
def deserializeVehicleRestartPhase : DecM VehicleRestartPhase := do
  let time_delay ← readFloat
  let guid ← readString
  let vehicle_guid ← readString
  pure { time_delay, guid, vehicle_guid }

/-- `Deserializer::deserializeVehicleRestartPhases`. -/
def deserializeVehicleRestartPhases : DecM (List VehicleRestartPhase) := do
  let count ← readInt32
  intcD count
  replicateD count.toNat deserializeVehicleRestartPhase

/-- `Deserializer::deserializeFlyingObject`. -/
def deserializeFlyingObject : DecM FlyingObject := do
  let pos ← readVec3
  let scale ← readVec3
  let prefab_name ← readString
  pure { pos, scale, prefab_name }

/-- `Deserializer::deserializeFlyingObjects`. -/
def deserializeFlyingObjects : DecM (List FlyingObject) := do
  let count ← readInt32
  intcD count
  replicateD count.toNat deserializeFlyingObject

/-- `Deserializer::deserializeRock`. -/
def deserializeRock : DecM Rock := do
  let pos ← readVec3
  let scale ← readVec3
  let prefab_name ← readString
  let flipped ← readBool
  pure { pos, scale, prefab_name, flipped }

/-- `Deserializer::deserializeRocks`. -/
def deserializeRocks : DecM (List Rock) := do
  let count ← readInt32
  intcD count
  replicateD count.toNat deserializeRock

/-- `Deserializer::deserializeWaterBlock`. -/
def deserializeWaterBlock (version : Int) : DecM WaterBlock := do
  let pos ← readVec3
  let width ← readFloat
  let height ← readFloat
  let lock_position ← condD (12 ≤ version) readBool (pure false)
  pure { pos, width, height, lock_position }

/-- `Deserializer::deserializeWaterBlocks`. -/
def deserializeWaterBlocks (version : Int) : DecM (List WaterBlock) := do
  let count ← readInt32
  intcD count
  replicateD count.toNat (deserializeWaterBlock version)

/-- `Deserializer::deserializeBudget`; the cash value is range-checked
by the log line `U::intc(b.cash, 0, 100000000, 0, 100000000)`. -/
def deserializeBudget : DecM Budget := do
  let cash ← readInt32
  checkD cash 0 100000000 0 100000000
  let road ← readInt32
  let wood ← readInt32
  let steel ← readInt32
  let hydraulics ← readInt32
  let rope ← readInt32
  let cable ← readInt32
  let spring ← readInt32
  let bungee_rope ← readInt32
  let allow_wood ← readBool
  let allow_steel ← readBool
  let allow_hydraulics ← readBool
  let allow_rope ← readBool
  let allow_cable ← readBool
  let allow_spring ← readBool
  let allow_reinforced_road ← readBool
  pure { cash, road, wood, steel, hydraulics, rope, cable, bungee_rope, spring,
         allow_wood, allow_steel, allow_hydraulics, allow_rope, allow_cable,
         allow_spring, allow_reinforced_road }

/-- `Deserializer::deserializeSettings`. -/
def deserializeSettings : DecM Settings := do
  let hydraulics_controller_enabled ← readBool
  let unbreakable ← readBool
  pure { hydraulics_controller_enabled, unbreakable }

/-- Bit pattern of `40.0f` (pre-v11 custom-shape mass default). -/
def pattern40 : Nat := 1109393408

/-- Bit pattern of `0.5f` (pre-v14 custom-shape bounciness default). -/
def patternHalf : Nat := 1056964608

/-- Bit pattern of `-1.348f` (the fixed z offset forced onto every
static pin after reading). -/
def patternStaticPinZ : Nat := 3215756100

/-- `Deserializer::deserializeCustomShape` (src/main.cpp:1476-1534). -/
def deserializeCustomShape (version : Int) : DecM CustomShape := do
  let pos ← readVec3
  let rot ← readQuaternion
  let scale ← readVec3
  let flipped ← readBool
  let dynamic ← readBool
  let collides_with_road ← readBool
  let collides_with_nodes ← readBool
  let collides_with_split_nodes ← condD (25 ≤ version) readBool (pure false)
  let rotation_degrees ← readFloat
  let color ←
    condD (10 ≤ version) readColor
      (do
        let _ ← readInt32
        pure { r := 0, g := 0, b := 0 })
  let mass ←
    condD (11 ≤ version) readFloat
      (do
        let _ ← readFloat
        pure pattern40)
  let bounciness ← condD (14 ≤ version) readFloat (pure patternHalf)
  let (pin_motor_strength, pin_target_velocity) ←
    condD (24 ≤ version)
      (do
        let a ← readFloat
        let b ← readFloat
        pure (a, b))
      (pure (0, 0))
  let count ← readInt32
  let points_local_space ← replicateD count.toNat readVec2
  let count2 ← readInt32
  let static_pins ← replicateD count2.toNat (do
    let p ← readVec3
    pure { x := p.x, y := p.y, z := patternStaticPinZ : Vec3 })
  let count3 ← readInt32
  let dynamic_anchor_guids ← replicateD count3.toNat readString
  pure { pos, rot, scale, flipped, dynamic, collides_with_road,
         collides_with_nodes, collides_with_split_nodes, rotation_degrees,
         color, mass, bounciness, pin_motor_strength, pin_target_velocity,
         points_local_space, static_pins, dynamic_anchor_guids }

/-- `Deserializer::deserializeCustomShapes`. -/
def deserializeCustomShapes (version : Int) : DecM (List CustomShape) := do
  let count ← readInt32
  intcD count
  replicateD count.toNat (deserializeCustomShape version)

/-- `Deserializer::deserializeWorkshop`. -/
def deserializeWorkshop (version : Int) : DecM Workshop := do
  let id ← readString
  let leaderboard_id ← condD (16 ≤ version) readString (pure [])
  let title ← readString
  let description ← readString
  let autoplay ← readBool
  let count ← readInt32
  intcD count
  let tags ← replicateD count.toNat readString
  pure { id, leaderboard_id, title, description, autoplay, tags }

/-- `Deserializer::deserializeSupportPillar`. -/
def deserializeSupportPillar : DecM SupportPillar := do
  let pos ← readVec3
  let scale ← readVec3
  let prefab_name ← readString
  pure { pos, scale, prefab_name }

/-- `Deserializer::deserializeSupportPillars`. -/
def deserializeSupportPillars : DecM (List SupportPillar) := do
  let count ← readInt32
  intcD count
  replicateD count.toNat deserializeSupportPillar

/-- `Deserializer::deserializePillar`. -/
def deserializePillar : DecM Pillar := do
  let pos ← readVec3
  let height ← readFloat
  let prefab_name ← readString
  pure { pos, height, prefab_name }

/-- `Deserializer::deserializePillars`. -/
def deserializePillars : DecM (List Pillar) := do
  let count ← readInt32
  intcD count
  replicateD count.toNat deserializePillar

end Deserializer

/-- Substring test at the head of a list (`d` occurs at the front). -/
def subEq : List Nat → List Nat → Bool
  | [], _ => true
  | _ :: _, [] => false
  | d :: ds, s :: ss => d == s && subEq ds ss

/-- First index at which `d` occurs in the suffix, offset by `i`
(`std::string::find`). -/
def findSubAux (d : List Nat) : List Nat → Nat → Option Nat
  | [], i => if d.isEmpty then some i else none
  | s@(_ :: t), i => if subEq d s then some i else findSubAux d t (i + 1)

/-- `std::string::find` of a pattern. -/
def findSub (s d : List Nat) : Option Nat := findSubAux d s 0

/-- Fueled splitter body of `Utils::splitString`; the fuel
`s.length + 1` always suffices for a non-empty delimiter. -/
def splitStringAux (d : List Nat) : Nat → List Nat → List (List Nat)
  | 0, s => [s]
  | fuel + 1, s =>
    match findSub s d with
    | none => [s]
    | some i => s.take i :: splitStringAux d fuel (s.drop (i + d.length))

/-- `Utils::splitString` (split on a delimiter substring, keeping the
final part). -/
def splitString (s d : List Nat) : List (List Nat) :=
  splitStringAux d (s.length + 1) s

/-- The PolyTechFramework mod delimiter: the narrow C++ literal
`"֍"`, i.e. the UTF-8 bytes of U+058D. -/
def ptfDelimiter : List Nat := [214, 141]

namespace Deserializer

/-- The mod-data end-of-stream probe (src/main.cpp:1618-1622): the
source records `tellg()`, seeks to the end to compare, and seeks back;
on the remaining-input representation this is exactly the test that no
input is left, and the restored position is the saved one. -/
def isAtEnd : DecM Bool := fun s c => some (s.isEmpty, s, c)

/-- `Deserializer::deserializePTFModData` (src/main.cpp:1598-1650). -/
def deserializePTFModData : DecM ModData := do
  let count ← readInt16
  intcD count
  let mods ← replicateD count.toNat (do
    let str ← readString
    let partsOfMod := splitString str ptfDelimiter
    let name : Str := partsOfMod.getD 0 []
    let version : Str := if 2 ≤ partsOfMod.length then partsOfMod.getD 1 [] else []
    let settings : Str := if 3 ≤ partsOfMod.length then partsOfMod.getD 2 [] else []
    pure ({ name, version, settings } : ModInfo))
  let atEnd ← isAtEnd
  if atEnd then pure { mods, mod_save_data := [] }
  else do
    let extraSaveDataCount ← readInt32
    if extraSaveDataCount = 0 then pure { mods, mod_save_data := [] }
    else do
      intcD extraSaveDataCount
      let entries ← replicateD extraSaveDataCount.toNat (do
        let modIdentifier ← readString
        let partsOfMod := splitString modIdentifier ptfDelimiter
        let name : Str := partsOfMod.getD 0 []
        let version : Str := if 2 ≤ partsOfMod.length then partsOfMod.getD 1 [] else []
        if name = [] then pure none
        else do
          let customModSaveData ← readByteArray
          pure (some ({ data := customModSaveData, name, version } : ModSaveData)))
      pure { mods, mod_save_data := entries.filterMap id }

/-- `Deserializer::deserializeLayout` (src/main.cpp:633-796). -/
def deserializeLayout (fixP : Nat → Nat) : DecM Layout := do
  let (version, isModded) ← getVersion
  checkD version 0 100 0 50
  intcD version
  let stubKey ← getStubKey
  let anchors ← condD (19 ≤ version) deserializeAnchors (pure [])
  let phases1 ← condD (5 ≤ version) deserializePhases (pure [])
  let bridge ←
    condD (4 < version) (deserializeBridge fixP)
      (do
        -- legacy inline bridge: joints, edges, pistons only, read with the
        -- default-initialised bridge version 0
        let count ← readInt32
        intcD count
        let joints ← replicateD count.toNat deserializeJoint
        let count2 ← readInt32
        intcD count2
        let edges ← replicateD count2.toNat (deserializeEdge 0)
        let count3 ← readInt32
        intcD count3
        let pistons ← replicateD count3.toNat (deserializePiston fixP 0)
        pure ({ version := 0, joints, edges, springs := [], pistons,
                anchors := [], phases := [] } : Bridge))
  let zAxisVehicles ← condD (7 ≤ version) (deserializeZAxisVehicles version) (pure [])
  let vehicles ← deserializeVehicles
  let vehicleStopTriggers ← deserializeVehicleStopTriggers
  let themeObjects ← condD (version < 20) deserializeThemeObjects (pure [])
  let eventTimelines ← deserializeEventTimelines version
  let checkpoints ← deserializeCheckpoints
  let terrainStretches ← deserializeTerrainIslands version
  let platforms ← deserializePlatforms version
  let ramps ← deserializeRamps version
  let phases ← condD (version < 5) deserializePhases (pure phases1)
  let vehicleRestartPhases ← deserializeVehicleRestartPhases
  let flyingObjects ← deserializeFlyingObjects
  let rocks ← deserializeRocks
  let waterBlocks ← deserializeWaterBlocks version
  let _ ←
    condD (version < 5)
      (do
        -- legacy garbage block: count of (string, inner count of strings)
        let count ← readInt32
        replicateD count.toNat (do
          let _ ← readString
          let count2 ← readInt32
          let _ ← replicateD count2.toNat readString
          pure ()))
      (pure [])
  let budget ← deserializeBudget
  let settings ← deserializeSettings
  let customShapes ← condD (9 ≤ version) (deserializeCustomShapes version) (pure [])
  let workshop ←
    condD (15 ≤ version) (deserializeWorkshop version)
      (pure { id := [], leaderboard_id := [], title := [], description := [],
              autoplay := false, tags := [] })
  let supportPillars ← condD (17 ≤ version) deserializeSupportPillars (pure [])
  let pillars ← condD (18 ≤ version) deserializePillars (pure [])
  -- (the source computes `long pos = tellg()` here and never uses it)
  let layout : Layout :=
    { version, stubKey, anchors, phases, bridge, zAxisVehicles, vehicles,
      vehicleStopTriggers, themeObjects_OBSOLETE := themeObjects, eventTimelines,
      checkpoints, platforms, terrainStretches, ramps, vehicleRestartPhases,
      flyingObjects, rocks, waterBlocks, budget, settings, customShapes,
      workshop, supportPillars, pillars, isModded,
      modData := { mods := [], mod_save_data := [] } }
  if isModded then do
    let modData ← deserializePTFModData
    pure { layout with modData }
  else pure layout

end Deserializer

/-! ## Serializer (src/main.cpp:1653-2098).  The serializer always
writes the fixed maximum versions (`MAX_VERSION` / `MAX_BRIDGE_VERSION`). -/

/-- `MAX_VERSION` macro. -/
def MAX_VERSION : Int := 26

/-- `MAX_BRIDGE_VERSION` macro. -/
def MAX_BRIDGE_VERSION : Int := 11

/-- `MAX_SLOT_VERSION` macro. -/
def MAX_SLOT_VERSION : Int := 3

/-- `MAX_PHYSICS_VERSION` macro. -/
def MAX_PHYSICS_VERSION : Int := 1

namespace Serializer

/-- Lift `Utils::ensureReasonable` into the serializer. -/
def checkE (value mn mx warnMin warnMax : Int) : EncM Unit := fun c =>
  (ensureReasonable value mn mx warnMin warnMax c).map fun c' => ((), [], c')

/-- `Utils::intc` as called from serializer log lines. -/
def intcE (value : Int) : EncM Unit :=
  checkE value (-1000) 10000 0 4096

/-- `Serializer::writeInt32`. -/
def writeInt32 (value : Int) : EncM Unit := emit (int32Bytes value)

/-- `Serializer::writeUInt16`. -/
def writeUInt16 (value : Nat) : EncM Unit := emit (leBytes 2 value)

/-- `Serializer::writeString`: the length is truncated to 16 bits by the
`(short)` cast, but all of the string's bytes are written. -/
def writeString (value : Str) : EncM Unit := do
  writeUInt16 value.length
  emit value

/-- `Serializer::writeFloat` (bit pattern, 4 little-endian bytes). -/
def writeFloat (value : Nat) : EncM Unit := emit (leBytes 4 value)

/-- `Serializer::writeBool`. -/
def writeBool (value : Bool) : EncM Unit := emit [if value then 1 else 0]

/-- `Serializer::writeByte`. -/
def writeByte (value : Nat) : EncM Unit := emit [value % 256]

/-- `Serializer::writeVector3`. -/
def writeVector3 (value : Vec3) : EncM Unit := do
  writeFloat value.x
  writeFloat value.y
  writeFloat value.z

/-- `Serializer::writeVector2`. -/
def writeVector2 (value : Vec2) : EncM Unit := do
  writeFloat value.x
  writeFloat value.y

/-- `Serializer::writeColor`: one byte per channel (the C++ computes
`(uint8)(channel * 255.0f)` from the in-memory float `k / 255.0f`,
which is exactly the byte `k` carried here). -/
def writeColor (value : Color) : EncM Unit := do
  writeByte value.r
  writeByte value.g
  writeByte value.b

/-- `Serializer::writeQuaternion`. -/
def writeQuaternion (value : Quat) : EncM Unit := do
  writeFloat value.x
  writeFloat value.y
  writeFloat value.z
  writeFloat value.w

/-- Sequential serializer loop over a list (`for (x : xs) ...`). -/
def forE {α : Type} : List α → (α → EncM Unit) → EncM Unit
  | [], _ => pure ()
  | x :: xs, f => do
    f x
    forE xs f

/-- `Serializer::findVehicleByGuid`: first vehicle with the given GUID;
not finding one is fatal (`exit(1)`). -/
def findVehicleByGuid (layout : Layout) (guid : Str) : Option Vehicle :=
  layout.vehicles.find? fun v => v.guid == guid

/-- `Serializer::serializeAnchorsBinary`. -/
def serializeAnchorsBinary (layout : Layout) : EncM Unit := do
  writeInt32 (layout.anchors.length : Int)
  forE layout.anchors fun anchor => do
    writeVector3 anchor.pos
    writeBool anchor.is_anchor
    writeBool anchor.is_split
    writeString anchor.guid
  intcE (layout.anchors.length : Int)

/-- `Serializer::serializeHydraulicsPhasesBinary`. -/
def serializeHydraulicsPhasesBinary (layout : Layout) : EncM Unit := do
  writeInt32 (layout.phases.length : Int)
  forE layout.phases fun phase => do
    writeFloat phase.time_delay
    writeString phase.guid
  intcE (layout.phases.length : Int)

/-- `Serializer::serializePreBridgeBinary`. -/
def serializePreBridgeBinary (layout : Layout) : EncM Unit := do
  writeInt32 MAX_VERSION
  intcE MAX_VERSION
  writeString layout.stubKey
  serializeAnchorsBinary layout
  serializeHydraulicsPhasesBinary layout

/-- `Serializer::serializeBridgeBinary` (src/main.cpp:1755-1826).
Note: no edge GUID is written, although `MAX_BRIDGE_VERSION = 11`
is written as the bridge version and the decoder reads a GUID per
edge from version 11 on. -/
def serializeBridgeBinary (layout : Layout) : EncM Unit := do
  let bridge := layout.bridge
  writeInt32 MAX_BRIDGE_VERSION
  intcE MAX_BRIDGE_VERSION
  writeInt32 (bridge.joints.length : Int)
  forE bridge.joints fun joint => do
    writeVector3 joint.pos
    writeBool joint.is_anchor
    writeBool joint.is_split
    writeString joint.guid
  intcE (bridge.joints.length : Int)
  writeInt32 (bridge.edges.length : Int)
  forE bridge.edges fun edge => do
    writeInt32 edge.material_type
    writeString edge.node_a_guid
    writeString edge.node_b_guid
    writeInt32 edge.joint_a_part
    writeInt32 edge.joint_b_part
  intcE (bridge.edges.length : Int)
  writeInt32 (bridge.springs.length : Int)
  forE bridge.springs fun spring => do
    writeFloat spring.normalized_value
    writeString spring.node_a_guid
    writeString spring.node_b_guid
    writeString spring.guid
  intcE (bridge.springs.length : Int)
  writeInt32 (bridge.pistons.length : Int)
  forE bridge.pistons fun piston => do
    writeFloat piston.normalized_value
    writeString piston.node_a_guid
    writeString piston.node_b_guid
    writeString piston.guid
  intcE (bridge.pistons.length : Int)
  writeInt32 (bridge.phases.length : Int)
  forE bridge.phases fun phase => do
    writeString phase.hydraulics_phase_guid
    writeInt32 (phase.piston_guids.length : Int)
    forE phase.piston_guids fun piston_guid => writeString piston_guid
    writeInt32 (phase.bridge_split_joints.length : Int)
    forE phase.bridge_split_joints fun bsj => do
      writeString bsj.guid
      writeInt32 bsj.state
    writeBool phase.disable_new_additions
  intcE (bridge.phases.length : Int)
  writeInt32 (bridge.anchors.length : Int)
  forE bridge.anchors fun anchor => do
    writeVector3 anchor.pos
    writeBool anchor.is_anchor
    writeBool anchor.is_split
    writeString anchor.guid
  intcE (bridge.anchors.length : Int)

/-- `Serializer::serializePostBridgeBinary` (src/main.cpp:1827-2097). -/
def serializePostBridgeBinary (layout : Layout) : EncM Unit := do
  writeInt32 (layout.zAxisVehicles.length : Int)
  forE layout.zAxisVehicles fun vehicle => do
    writeVector2 vehicle.pos
    writeString vehicle.prefab_name
    writeString vehicle.guid
    writeFloat vehicle.time_delay
    writeFloat vehicle.speed
    writeQuaternion vehicle.rot
    writeFloat vehicle.rotation_degrees
  intcE (layout.zAxisVehicles.length : Int)
  writeInt32 (layout.vehicles.length : Int)
  forE layout.vehicles fun vehicle => do
    writeString vehicle.display_name
    writeVector2 vehicle.pos
    writeQuaternion vehicle.rot
    writeString vehicle.prefab_name
    writeFloat vehicle.target_speed
    writeFloat vehicle.mass
    writeFloat vehicle.braking_force_multiplier
    writeInt32 vehicle.strength_method
    writeFloat vehicle.acceleration
    writeFloat vehicle.max_slope
    writeFloat vehicle.desired_acceleration
    writeFloat vehicle.shocks_multiplier
    writeFloat vehicle.rotation_degrees
    writeFloat vehicle.time_delay
    writeBool vehicle.idle_on_downhill
    writeBool vehicle.flipped
    writeBool vehicle.ordered_checkpoints
    writeString vehicle.guid
    match findVehicleByGuid layout vehicle.guid with
    | some v => do
      writeInt32 (v.checkpoint_guids.length : Int)
      forE v.checkpoint_guids fun checkpoint_guid => writeString checkpoint_guid
    | none => efail
  intcE (layout.vehicles.length : Int)
  writeInt32 (layout.vehicleStopTriggers.length : Int)
  forE layout.vehicleStopTriggers fun trigger => do
    writeVector2 trigger.pos
    writeQuaternion trigger.rot
    writeFloat trigger.height
    writeFloat trigger.rotation_degrees
    writeBool trigger.flipped
    writeString trigger.prefab_name
    writeString trigger.stop_vehicle_guid
  intcE (layout.vehicleStopTriggers.length : Int)
  writeInt32 (layout.eventTimelines.length : Int)
  forE layout.eventTimelines fun timeline => do
    writeString timeline.checkpoint_guid
    writeInt32 (timeline.stages.length : Int)
    forE timeline.stages fun stage => do
      writeInt32 (stage.units.length : Int)
      forE stage.units fun unit => writeString unit.guid
  intcE (layout.eventTimelines.length : Int)
  writeInt32 (layout.checkpoints.length : Int)
  forE layout.checkpoints fun checkpoint => do
    writeVector2 checkpoint.pos
    writeString checkpoint.prefab_name
    writeString checkpoint.vehicle_guid
    writeString checkpoint.vehicle_restart_phase_guid
    writeBool checkpoint.trigger_timeline
    writeBool checkpoint.stop_vehicle
    writeBool checkpoint.reverse_vehicle_on_restart
    writeString checkpoint.guid
  intcE (layout.checkpoints.length : Int)
  writeInt32 (layout.terrainStretches.length : Int)
  forE layout.terrainStretches fun stretch => do
    writeVector3 stretch.pos
    writeString stretch.prefab_name
    writeFloat stretch.height_added
    writeFloat stretch.right_edge_water_height
    writeInt32 stretch.terrain_island_type
    writeInt32 stretch.variant_index
    writeBool stretch.flipped
    writeBool stretch.lock_position
  intcE (layout.terrainStretches.length : Int)
  writeInt32 (layout.platforms.length : Int)
  forE layout.platforms fun platform => do
    writeVector2 platform.pos
    writeFloat platform.width
    writeFloat platform.height
    writeBool platform.flipped
    writeBool platform.solid
  intcE (layout.platforms.length : Int)
  writeInt32 (layout.ramps.length : Int)
  forE layout.ramps fun ramp => do
    writeVector2 ramp.pos
    writeInt32 (ramp.control_points.length : Int)
    forE ramp.control_points fun control_point => writeVector2 control_point
    writeFloat ramp.height
    writeInt32 ramp.num_segments
    writeInt32 ramp.spline_type
    writeBool ramp.flipped_vertical
    writeBool ramp.flipped_horizontal
    writeBool ramp.hide_legs
    writeBool ramp.flipped_legs
    writeInt32 (ramp.line_points.length : Int)
    forE ramp.line_points fun line_point => writeVector2 line_point
  intcE (layout.ramps.length : Int)
  writeInt32 (layout.vehicleRestartPhases.length : Int)
  forE layout.vehicleRestartPhases fun phase => do
    writeFloat phase.time_delay
    writeString phase.guid
    writeString phase.vehicle_guid
  intcE (layout.vehicleRestartPhases.length : Int)
  writeInt32 (layout.flyingObjects.length : Int)
  forE layout.flyingObjects fun flying_object => do
    writeVector3 flying_object.pos
    writeVector3 flying_object.scale
    writeString flying_object.prefab_name
  intcE (layout.flyingObjects.length : Int)
  writeInt32 (layout.rocks.length : Int)
  forE layout.rocks fun rock => do
    writeVector3 rock.pos
    writeVector3 rock.scale
    writeString rock.prefab_name
    writeBool rock.flipped
  intcE (layout.rocks.length : Int)
  writeInt32 (layout.waterBlocks.length : Int)
  forE layout.waterBlocks fun water_block => do
    writeVector3 water_block.pos
    writeFloat water_block.width
    writeFloat water_block.height
    writeBool water_block.lock_position
  intcE (layout.waterBlocks.length : Int)
  writeInt32 layout.budget.cash
  writeInt32 layout.budget.road
  writeInt32 layout.budget.wood
  writeInt32 layout.budget.steel
  writeInt32 layout.budget.hydraulics
  writeInt32 layout.budget.rope
  writeInt32 layout.budget.cable
  writeInt32 layout.budget.spring
  writeInt32 layout.budget.bungee_rope
  writeBool layout.budget.allow_wood
  writeBool layout.budget.allow_steel
  writeBool layout.budget.allow_hydraulics
  writeBool layout.budget.allow_rope
  writeBool layout.budget.allow_cable
  writeBool layout.budget.allow_spring
  writeBool layout.budget.allow_reinforced_road
  checkE layout.budget.cash 0 100000000 0 100000000
  writeBool layout.settings.hydraulics_controller_enabled
  writeBool layout.settings.unbreakable
  writeInt32 (layout.customShapes.length : Int)
  forE layout.customShapes fun cs => do
    writeVector3 cs.pos
    writeQuaternion cs.rot
    writeVector3 cs.scale
    writeBool cs.flipped
    writeBool cs.dynamic
    writeBool cs.collides_with_road
    writeBool cs.collides_with_nodes
    writeBool cs.collides_with_split_nodes
    writeFloat cs.rotation_degrees
    writeColor cs.color
    writeFloat cs.mass
    writeFloat cs.bounciness
    writeFloat cs.pin_motor_strength
    writeFloat cs.pin_target_velocity
    writeInt32 (cs.points_local_space.length : Int)
    forE cs.points_local_space fun point => writeVector2 point
    writeInt32 (cs.static_pins.length : Int)
    forE cs.static_pins fun static_pin => writeVector3 static_pin
    writeInt32 (cs.dynamic_anchor_guids.length : Int)
    forE cs.dynamic_anchor_guids fun dynamic_anchor_guid => writeString dynamic_anchor_guid
  intcE (layout.customShapes.length : Int)
  writeString layout.workshop.id
  writeString layout.workshop.leaderboard_id
  writeString layout.workshop.title
  writeString layout.workshop.description
  writeBool layout.workshop.autoplay
  writeInt32 (layout.workshop.tags.length : Int)
  forE layout.workshop.tags fun tag => writeString tag
  writeInt32 (layout.supportPillars.length : Int)
  forE layout.supportPillars fun support_pillar => do
    writeVector3 support_pillar.pos
    writeVector3 support_pillar.scale
    writeString support_pillar.prefab_name
  intcE (layout.supportPillars.length : Int)
  writeInt32 (layout.pillars.length : Int)
  forE layout.pillars fun pillar => do
    writeVector3 pillar.pos
    writeFloat pillar.height
    writeString pillar.prefab_name
  intcE (layout.pillars.length : Int)

/-- `Serializer::serializeLayout`. -/
def serializeLayout (layout : Layout) : EncM Unit := do
  serializePreBridgeBinary layout
  serializeBridgeBinary layout
  serializePostBridgeBinary layout

end Serializer

/-! ## SimpleBridgeDeserializer (src/main.cpp:2100-2292)

The bridge decoder used on a save-slot's raw sub-payload.  It reads the
same primitive formats from an in-memory buffer.  Its
`readBool` reinterprets the byte as a C++ `bool` object; for the byte
values 0/1 actually produced by the game this agrees with `byte != 0`,
which is how it is modelled.  Reads past the end of the buffer (which
would be out-of-bounds in the C++) are modelled as failure. -/

namespace SimpleBridge

/-- `SimpleBridgeDeserializer::readByte`. -/
def readByte : DecM Nat := fun s c =>
  match s with
  | [] => none
  | b :: t => some (b, t, c)

/-- `SimpleBridgeDeserializer::readBytes`. -/
def readBytes (k : Nat) : DecM (List Nat) := fun s c =>
  (takeExact k s).map fun p => (p.1, p.2, c)

/-- `SimpleBridgeDeserializer::readBool`. -/
def readBool : DecM Bool := do
  let b ← readByte
  pure (b != 0)

/-- `SimpleBridgeDeserializer::readUInt16`. -/
def readUInt16 : DecM Nat := do
  let bs ← readBytes 2
  pure (natOfLE bs)

/-- `SimpleBridgeDeserializer::readInt32`. -/
def readInt32 : DecM Int := do
  let bs ← readBytes 4
  pure (asInt32 (natOfLE bs))

/-- `SimpleBridgeDeserializer::readFloat` (bit pattern). -/
def readFloat : DecM Nat := do
  let bs ← readBytes 4
  pure (natOfLE bs)

/-- `SimpleBridgeDeserializer::readString`. -/
def readString : DecM Str := do
  let length ← readUInt16
  readBytes length

/-- `SimpleBridgeDeserializer::readVector3`. -/
def readVector3 : DecM Vec3 := do
  let x ← readFloat
  let y ← readFloat
  let z ← readFloat
  pure { x, y, z }

/-- The `for (int i = 0; i < num; i++)` loops of the simple decoder (the
same counted-loop shape as in the stream decoder). -/
def replicateS {α : Type} : Nat → DecM α → DecM (List α) :=
  Deserializer.replicateD

/-- `SimpleBridgeDeserializer::deserializeBridge`
(src/main.cpp:2107-2237).  Faithful to the source: the decoded edges and
hydraulics-controller phases are built but never pushed into the bridge,
and no edge GUID is read even for version ≥ 11. -/
def deserializeBridge (fixP : Nat → Nat) : DecM Bridge := do
  let version ← readInt32
  Deserializer.intcD version
  if version < 2 then
    pure { version, joints := [], edges := [], springs := [], pistons := [],
           anchors := [], phases := [] }
  else do
    let num1 ← readInt32
    Deserializer.intcD num1
    let joints ← replicateS num1.toNat (do
      let pos ← readVector3
      let is_anchor ← readBool
      let is_split ← readBool
      let guid ← readString
      pure ({ pos, is_anchor, is_split, guid } : BridgeJoint))
    let num2 ← readInt32
    Deserializer.intcD num2
    let _ ← replicateS num2.toNat (do
      let material_type ← readInt32
      let node_a_guid ← readString
      let node_b_guid ← readString
      let joint_a_part ← readInt32
      let joint_b_part ← readInt32
      -- the edge is built but never pushed into the bridge, and no GUID
      -- is read even for version >= 11
      pure ({ material_type, node_a_guid, node_b_guid, joint_a_part,
              joint_b_part, guid := [] } : BridgeEdge))
    let springs ←
      condD (7 ≤ version)
        (do
          let num3 ← readInt32
          Deserializer.intcD num3
          replicateS num3.toNat (do
            let normalized_value ← readFloat
            let node_a_guid ← readString
            let node_b_guid ← readString
            let guid ← readString
            pure ({ normalized_value, node_a_guid, node_b_guid, guid } : BridgeSpring)))
        (pure [])
    let num4 ← readInt32
    Deserializer.intcD num4
    let pistons ← replicateS num4.toNat (do
      let normalized_value ← readFloat
      let node_a_guid ← readString
      let node_b_guid ← readString
      let guid ← readString
      if version < 8 then
        pure ({ normalized_value := fixP normalized_value, node_a_guid,
                node_b_guid, guid } : Piston)
      else
        pure ({ normalized_value, node_a_guid, node_b_guid, guid } : Piston))
    let num5 ← readInt32
    Deserializer.intcD num5
    let _ ← replicateS num5.toNat (do
      let hydraulics_phase_guid ← readString
      let num_pistons ← readInt32
      let piston_guids ← replicateS num_pistons.toNat readString
      let bridge_split_joints ←
        condD (2 < version)
          (do
            let split_joint_count ← readInt32
            replicateS split_joint_count.toNat (do
              let guid ← readString
              let state ← readInt32
              pure ({ guid, state } : BridgeSplitJoint)))
          (do
            let count ← readInt32
            let _ ← replicateS count.toNat readString
            pure [])
      let disable_new_additions ← condD (9 < version) readBool (pure false)
      -- the phase is built but never pushed into the bridge
      pure ({ hydraulics_phase_guid, piston_guids, bridge_split_joints,
              disable_new_additions } : HydraulicsControllerPhase))
    let _ ←
      condD (version = 5)
        (do
          let count ← readInt32
          replicateS count.toNat readString)
        (pure [])
    let anchors ←
      condD (6 ≤ version)
        (do
          let num6 ← readInt32
          Deserializer.intcD num6
          replicateS num6.toNat (do
            let pos ← readVector3
            let is_anchor ← readBool
            let is_split ← readBool
            let guid ← readString
            pure ({ pos, is_anchor, is_split, guid } : BridgeJoint)))
        (pure [])
    let _ ← condD (4 ≤ version ∧ version < 9) readBool (pure false)
    pure { version, joints, edges := [], springs, pistons, anchors, phases := [] }

end SimpleBridge

/-! ## SlotDeserializer (src/main.cpp:2294-2744) -/

/-- The `EntryType` enum (src/main.cpp:141-159). -/
inductive EntryType where
  | InvalidType
  | String
  | Guid
  | Integer
  | FloatingPoint
  | Boolean
  | Null
  | StartOfNode
  | EndOfNodeType
  | InternalReference
  | ExternalReferenceByIndex
  | ExternalReferenceByGuid
  | StartOfArrayType
  | EndOfArrayType
  | PrimitiveArrayType
  | EndOfStreamType
  | ExternalReferenceByString
deriving DecidableEq, BEq

/-- `EntryTypeReturn` (src/main.cpp:453-456). -/
structure EntryTypeReturn where
  type : EntryType
  name : Str
deriving DecidableEq

/-- `TypeEntryReturn` (src/main.cpp:457-460). -/
structure TypeEntryReturn where
  typeName : Str
  assemblyName : Str
deriving DecidableEq

/-- Error modes of the slot decoder: a failed schema `assert`, an
`exit(1)` / uncaught-exception path, or a read past the end of the
stream. -/
inductive SlotError where
  | assertFailed
  | fatal
  | readFail
deriving DecidableEq

/-- Except-state monad of the slot decoder: remaining input plus the
global `unusualNumbers` counter; errors carry the stream position
(remaining input) and counter at the failure point. -/
def SlotM (α : Type) : Type :=
  List Nat → Nat → Except (SlotError × List Nat × Nat) (α × List Nat × Nat)

instance : Monad SlotM where
  pure a := fun s c => .ok (a, s, c)
  bind m f := fun s c =>
    match m s c with
    | .ok (a, s', c') => f a s' c'
    | .error e => .error e

/-- Two's-complement reading of an unsigned 64-bit value. -/
def asInt64 (n : Nat) : Int :=
  if n < 9223372036854775808 then (n : Int) else (n : Int) - 18446744073709551616

/-- UTF-8 encoding of one Unicode code point. -/
def utf8Encode (cp : Nat) : List Nat :=
  if cp < 128 then [cp]
  else if cp < 2048 then [192 + cp / 64, 128 + cp % 64]
  else if cp < 65536 then [224 + cp / 4096, 128 + cp / 64 % 64, 128 + cp % 64]
  else [240 + cp / 262144, 128 + cp / 4096 % 64, 128 + cp / 64 % 64, 128 + cp % 64]

/-- Decode UTF-16 code units to code points, pairing surrogates; `none`
on a malformed sequence (where `std::wstring_convert` would throw). -/
def utf16ToCodepoints : List Nat → Option (List Nat)
  | [] => some []
  | u :: rest =>
    if u < 55296 ∨ 57344 ≤ u then (utf16ToCodepoints rest).map (u :: ·)
    else if u < 56320 then
      match rest with
      | lo :: rest2 =>
        if 56320 ≤ lo ∧ lo < 57344 then
          (utf16ToCodepoints rest2).map ((65536 + (u - 55296) * 1024 + (lo - 56320)) :: ·)
        else none
      | [] => none
    else none

/-- Group bytes into little-endian 16-bit code units. -/
def pairUnits : List Nat → List Nat
  | lo :: hi :: rest => (lo + 256 * hi) :: pairUnits rest
  | _ => []

/-- Split on a byte with `std::getline` loop semantics: a trailing
delimiter produces no final empty field, and an empty input produces
no fields. -/
def splitByteAux (b : Nat) : List Nat → List Nat → List (List Nat)
  | [], acc => [acc.reverse]
  | x :: t, acc =>
    if x = b then acc.reverse :: splitByteAux b t []
    else splitByteAux b t (x :: acc)

/-- `while (std::getline(ss, item, c))` splitting. -/
def getlineSplit (s : List Nat) (b : Nat) : List (List Nat) :=
  if s = [] then []
  else if s.getLast? = some b then (splitByteAux b s []).dropLast
  else splitByteAux b s []

/-- The bytes of an ASCII Lean string literal (code points, which for
the ASCII field identifiers used by the slot schema coincide with their
UTF-8 bytes). -/
def strBytes (s : String) : Str := s.data.map Char.toNat

namespace SlotDeserializer

/-- `std::ifstream::get`: the next byte, or −1 at end of stream. -/
def sGet : SlotM Int := fun s c =>
  match s with
  | [] => .ok (-1, [], c)
  | b :: t => .ok ((b : Int), t, c)

/-- Read `k` raw bytes (`file.read`); reading past the end fails. -/
def sReadBytes (k : Nat) : SlotM (List Nat) := fun s c =>
  match takeExact k s with
  | some p => .ok (p.1, p.2, c)
  | none => .error (.readFail, s, c)

/-- `exit(1)` and uncaught-exception paths. -/
def sFatal {α : Type} : SlotM α := fun s c => .error (.fatal, s, c)

/-- A schema `assert`: failing records the stream position after the
offending entry. -/
def sAssert (b : Bool) : SlotM Unit := fun s c =>
  if b then .ok ((), s, c) else .error (.assertFailed, s, c)

/-- `Utils::ensureReasonable` lifted into the slot decoder. -/
def sCheckS (value mn mx warnMin warnMax : Int) : SlotM Unit := fun s c =>
  match ensureReasonable value mn mx warnMin warnMax c with
  | some c' => .ok ((), s, c')
  | none => .error (.fatal, s, c)

/-- `Utils::intc` with the default envelope. -/
def intcS (value : Int) : SlotM Unit :=
  sCheckS value (-1000) 10000 0 4096

/-- `SlotDeserializer::readInt`. -/
def readInt : SlotM Int := do
  let bs ← sReadBytes 4
  pure (asInt32 (natOfLE bs))

/-- Read `n` bytes where `n` came from the wire as a signed int; a
negative allocation request is fatal. -/
def sReadBytesI (n : Int) : SlotM (List Nat) :=
  if n < 0 then sFatal else sReadBytes n.toNat

/-- `SlotDeserializer::readString` (src/main.cpp:2476-2498): a one-byte
discriminant selects UTF-8 (byte-length prefix) or UTF-16
(code-unit-length prefix, little-endian units converted to UTF-8); EOF
or any other discriminant yields the empty string. -/
def readString : SlotM Str := do
  let num ← sGet
  if num < 0 then pure []
  else if num = 0 then do
    let num2 ← readInt
    let bytes ← sReadBytesI num2
    pure bytes
  else if num = 1 then do
    let length ← readInt
    let raw ← sReadBytesI (2 * length)
    match utf16ToCodepoints (pairUnits raw) with
    | some cps => pure (cps.flatMap utf8Encode)
    | none => sFatal
  else pure []

/-- `SlotDeserializer::readBool` (`file.get() == 1`). -/
def readBool : SlotM Bool := do
  let b ← sGet
  pure (b == 1)

/-- `SlotDeserializer::readLong`: eight `file.get()` results assembled
little-endian through `uint64_t` casts. -/
def readLong : SlotM Int := do
  let g0 ← sGet
  let g1 ← sGet
  let g2 ← sGet
  let g3 ← sGet
  let g4 ← sGet
  let g5 ← sGet
  let g6 ← sGet
  let g7 ← sGet
  let u (g : Int) : Nat := (g % 18446744073709551616).toNat
  let value := (((((((u g0 |>.lor (u g1 <<< 8)) |>.lor (u g2 <<< 16)) |>.lor
      (u g3 <<< 24)) |>.lor (u g4 <<< 32)) |>.lor (u g5 <<< 40)) |>.lor
      (u g6 <<< 48)) |>.lor (u g7 <<< 56)) % 18446744073709551616
  pure (asInt64 value)

/-- Named-entry helper of `peekEntryType`: the tag is followed by the
field name string. -/
def namedRet (t : EntryType) : SlotM EntryTypeReturn := do
  let name ← readString
  pure { type := t, name }

/-- `SlotDeserializer::peekEntryType` (src/main.cpp:2499-2682).  Despite
the name it consumes the tag byte (and the name of a named entry). -/
def peekEntryType : SlotM EntryTypeReturn := do
  let c ← sGet
  if c < 0 then pure { type := .EndOfStreamType, name := [] }
  else
    match c.toNat with
    | 1 => namedRet .StartOfNode      -- NamedStartOfReferenceNode
    | 3 => namedRet .StartOfNode      -- NamedStartOfStructNode
    | 2 => pure { type := .StartOfNode, name := [] }
    | 4 => pure { type := .StartOfNode, name := [] }
    | 5 => pure { type := .EndOfNodeType, name := [] }
    | 6 => pure { type := .StartOfArrayType, name := [] }
    | 7 => pure { type := .EndOfArrayType, name := [] }
    | 8 => pure { type := .PrimitiveArrayType, name := [] }
    | 9 => namedRet .InternalReference
    | 10 => pure { type := .InternalReference, name := [] }
    | 11 => namedRet .ExternalReferenceByIndex
    | 12 => pure { type := .ExternalReferenceByIndex, name := [] }
    | 13 => namedRet .ExternalReferenceByGuid
    | 14 => pure { type := .ExternalReferenceByGuid, name := [] }
    | 15 => namedRet .Integer         -- NamedSByte
    | 16 => pure { type := .Integer, name := [] }
    | 17 => namedRet .Integer         -- NamedByte
    | 18 => pure { type := .Integer, name := [] }
    | 19 => namedRet .Integer         -- NamedShort
    | 20 => pure { type := .Integer, name := [] }
    | 21 => namedRet .Integer         -- NamedUShort
    | 22 => pure { type := .Integer, name := [] }
    | 23 => namedRet .Integer         -- NamedInt
    | 24 => pure { type := .Integer, name := [] }
    | 25 => namedRet .Integer         -- NamedUInt
    | 26 => pure { type := .Integer, name := [] }
    | 27 => namedRet .Integer         -- NamedLong
    | 28 => pure { type := .Integer, name := [] }
    | 29 => namedRet .Integer         -- NamedULong
    | 30 => pure { type := .Integer, name := [] }
    | 31 => namedRet .FloatingPoint   -- NamedFloat
    | 32 => pure { type := .FloatingPoint, name := [] }
    | 33 => namedRet .FloatingPoint   -- NamedDouble
    | 34 => pure { type := .FloatingPoint, name := [] }
    | 35 => namedRet .FloatingPoint   -- NamedDecimal
    | 36 => pure { type := .FloatingPoint, name := [] }
    | 37 => namedRet .String          -- NamedChar
    | 38 => pure { type := .String, name := [] }
    | 39 => namedRet .String          -- NamedString
    | 40 => pure { type := .String, name := [] }
    | 41 => namedRet .Guid
    | 42 => pure { type := .Guid, name := [] }
    | 43 => namedRet .Boolean
    | 44 => pure { type := .Boolean, name := [] }
    | 45 => namedRet .Null
    | 46 => pure { type := .Null, name := [] }
    | 47 => sFatal                    -- TypeName cannot be peeked: exit(1)
    | 48 => sFatal                    -- TypeID cannot be peeked: exit(1)
    | 49 => pure { type := .EndOfStreamType, name := [] }
    | 50 => namedRet .ExternalReferenceByString
    | 51 => pure { type := .ExternalReferenceByString, name := [] }
    | _ => pure { type := .InvalidType, name := [] }

/-- `SlotDeserializer::readTypeEntry` (src/main.cpp:2683-2719). -/
def readTypeEntry : SlotM TypeEntryReturn := do
  let num ← sGet
  if num < 0 then pure { typeName := [], assemblyName := [] }
  else if num = 47 then do          -- TypeName
    let _key ← readInt
    let type_name ← readString
    let type_names := getlineSplit type_name 44
    if type_names.length ≠ 2 then sFatal
    else
      pure { typeName := type_names.getD 0 [],
             assemblyName := (type_names.getD 1 []).drop 1 }
  else if num = 48 then             -- TypeID: trusted, nothing more read
    pure { typeName := [], assemblyName := [] }
  else sFatal

/-- `SlotDeserializer::enterNode`: consume one entry; when it is a node
start, read the type descriptor and the 32-bit node id. -/
def enterNode : SlotM Unit := do
  let et ← peekEntryType
  if et.type == EntryType.StartOfNode then do
    let _type ← readTypeEntry
    let _id ← readInt
    pure ()
  else pure ()

/-- Run the `SimpleBridgeDeserializer` over an extracted byte buffer,
threading the shared global `unusualNumbers` counter. -/
def runSimple (fixP : Nat → Nat) (bytes : List Nat) : SlotM Bridge := fun s c =>
  match SimpleBridge.deserializeBridge fixP bytes c with
  | some (b, _, c') => .ok (b, s, c')
  | none => .error (.fatal, s, c)

/-- `SlotDeserializer::deserializeSlot` (src/main.cpp:2306-2466). -/
def deserializeSlot (fixP : Nat → Nat) : SlotM SaveSlot := do
  enterNode
  let et1 ← peekEntryType
  sAssert (et1.type == EntryType.Integer)
  sAssert (et1.name == strBytes "m_Version")
  let version ← readInt
  intcS version
  let et2 ← peekEntryType
  sAssert (et2.type == EntryType.Integer)
  sAssert (et2.name == strBytes "m_PhysicsVersion")
  let physics_version ← readInt
  intcS physics_version
  let et3 ← peekEntryType
  sAssert (et3.type == EntryType.Integer)
  sAssert (et3.name == strBytes "m_SlotID")
  let slot_id ← readInt
  intcS slot_id
  let et4 ← peekEntryType
  sAssert (et4.type == EntryType.String)
  sAssert (et4.name == strBytes "m_DisplayName")
  let slot_name ← readString
  let et5 ← peekEntryType
  sAssert (et5.type == EntryType.String)
  sAssert (et5.name == strBytes "m_SlotFilename")
  let slot_filename ← readString
  let et6 ← peekEntryType
  sAssert (et6.type == EntryType.Integer)
  sAssert (et6.name == strBytes "m_Budget")
  let budget ← readInt
  sCheckS budget 0 10000000 0 10000000
  let et7 ← peekEntryType
  sAssert (et7.type == EntryType.Integer)
  sAssert (et7.name == strBytes "m_LastWriteTimeTicks")
  let last_write_time ← readLong
  enterNode
  let et8 ← peekEntryType
  sAssert (et8.type == EntryType.PrimitiveArrayType)
  let num ← readInt
  let num2 ← readInt
  let bridge_data ← sReadBytesI (num * num2)
  sCheckS (num * num2) 0 100000000 0 100000000
  let bridge ← runSimple fixP bridge_data
  let et9 ← peekEntryType
  sAssert (et9.type == EntryType.EndOfNodeType)
  let et10 ← peekEntryType
  sAssert (et10.name == strBytes "m_Thumb")
  let thumbnail ←
    if et10.type == EntryType.Null then pure none
    else do
      let _ ← sGet             -- "type ID defining byte"
      let _ ← readInt          -- typename
      let _node_id ← readInt   -- node ID
      let et11 ← peekEntryType
      sAssert (et11.type == EntryType.PrimitiveArrayType)
      let tnum ← readInt
      let tnum2 ← readInt
      sCheckS (tnum * tnum2) 0 10000000 0 10000000
      let thumbnail_data ← sReadBytesI (tnum * tnum2)
      let et12 ← peekEntryType
      sAssert (et12.type == EntryType.EndOfNodeType)
      pure (some thumbnail_data)
  let et13 ← peekEntryType
  sAssert (et13.name == strBytes "m_UsingUnlimitedMaterials")
  sAssert (et13.type == EntryType.Boolean)
  let unlimited_materials ← readBool
  let et14 ← peekEntryType
  sAssert (et14.name == strBytes "m_UsingUnlimitedBudget")
  sAssert (et14.type == EntryType.Boolean)
  let unlimited_budget ← readBool
  let et15 ← peekEntryType
  sAssert (et15.type == EntryType.EndOfNodeType)
  pure { version, physicsVersion := physics_version, slotId := slot_id,
         displayName := slot_name, fileName := slot_filename, budget,
         lastWriteTimeTicks := last_write_time, bridge,
         unlimitedMaterials := unlimited_materials,
         unlimitedBudget := unlimited_budget, thumbnail }

end SlotDeserializer

/-! ## Arithmetic model of the piston correction

`Deserializer::fixPistonNormalizedValue` (src/main.cpp:797-809) with its
helpers `clamp01` and `lerp` (src/main.cpp:974-985), modelled over `ℚ`
(exact arithmetic in place of `float`). -/

/-- `Deserializer::clamp01`. -/
def clamp01 (value : ℚ) : ℚ :=
  if value < 0 then 0 else if 1 < value then 1 else value

/-- `Deserializer::lerp`. -/
def lerp (a b t : ℚ) : ℚ := a + (b - a) * t

/-- `Deserializer::fixPistonNormalizedValue`. -/
def fixPistonNormalizedValue (value : ℚ) : ℚ :=
  if value < 1/4 then lerp 1 (1/2) (clamp01 (value / (1/4)))
  else if 3/4 < value then lerp (1/2) 1 (clamp01 ((value - 3/4) / (1/4)))
  else lerp 0 (1/2) (clamp01 (|value - 1/2| / (1/4)))

/-! ## Claim-shaped bridge decode schedule (for C4)

A restatement of the bridge decoder as the version-gated field schedule
described by the specification, built from counted-collection
combinators; carried alongside the line-faithful
`Deserializer.deserializeBridge` to be proved equal to it.  The sanity
check instrumentation (`ensureReasonable` / `intc` on the version and
the collection counts) is orthogonal to the schedule and carried over
verbatim. -/

namespace BridgeSchedule

open Deserializer

/-- A 32-bit count (sanity-checked) followed by that many records. -/
def readCounted {α : Type} (d : DecM α) : DecM (List α) := do
  let n ← readInt32
  intcD n
  replicateD n.toNat d

/-- An unchecked 32-bit count followed by that many records. -/
def readCountedRaw {α : Type} (d : DecM α) : DecM (List α) := do
  let n ← readInt32
  replicateD n.toNat d

/-- Edge schedule: GUID on the wire only from version 11, empty string
below. -/
def edgeStep (version : Int) : DecM BridgeEdge := do
  let material_type ← readInt32
  let node_a_guid ← readString
  let node_b_guid ← readString
  let joint_a_part ← readInt32
  let joint_b_part ← readInt32
  let guid ← condD (11 ≤ version) readString (pure [])
  pure { material_type, node_a_guid, node_b_guid, joint_a_part, joint_b_part, guid }

/-- Phase schedule: the phase GUID and its piston GUIDs, then
split-joint records if version > 2, else an equal count of discarded
strings, then a trailing boolean only if version > 9. -/
def phaseStep (version : Int) : DecM HydraulicsControllerPhase := do
  let hydraulics_phase_guid ← readString
  let piston_guids ← readCountedRaw readString
  let bridge_split_joints ←
    condD (2 < version) (readCountedRaw deserializeSplitJoint)
      (do
        let _ ← readCountedRaw readString
        pure [])
  let disable_new_additions ← condD (9 < version) readBool (pure false)
  pure { hydraulics_phase_guid, piston_guids, bridge_split_joints, disable_new_additions }

/-- The gated bridge field schedule of the specification: version; below
2 an empty bridge with no further bytes consumed; otherwise joints,
edges, springs only from version 7, pistons, hydraulics-controller
phases, a discarded string block exactly at version 5, anchors only from
version 6, and one discarded boolean exactly for versions 4-8. -/
def schedule (fixP : Nat → Nat) : DecM Bridge := do
  let version ← readInt32
  checkD version 0 100 0 50
  intcD version
  if version < 2 then
    pure { version, joints := [], edges := [], springs := [], pistons := [],
           anchors := [], phases := [] }
  else do
    let joints ← readCounted deserializeJoint
    let edges ← readCounted (edgeStep version)
    let springs ← condD (7 ≤ version) (readCounted deserializeSpring) (pure [])
    let pistons ← readCounted (deserializePiston fixP version)
    let phases ← readCounted (phaseStep version)
    let _ ← condD (version = 5) (readCountedRaw readString) (pure [])
    let anchors ← condD (6 ≤ version) (readCounted deserializeAnchor) (pure [])
    let _ ← condD (4 ≤ version ∧ version < 9) readBool (pure false)
    pure { version, joints, edges, springs, pistons, anchors, phases }

end BridgeSchedule

/-! ## Claim-shaped mod-data decode (for C7) -/

namespace ModSchedule

open Deserializer

/-- Split a mod identifier on the private delimiter into up to three
parts, missing parts defaulting to empty. -/
def splitMod (s : Str) : Str × Str × Str :=
  let parts := splitString s ptfDelimiter
  (parts.getD 0 [],
   if 2 ≤ parts.length then parts.getD 1 [] else [],
   if 3 ≤ parts.length then parts.getD 2 [] else [])

/-- One mod-list entry: a length-prefixed string split on the
delimiter. -/
def modStep : DecM ModInfo := do
  let s ← readString
  let (name, version, settings) := splitMod s
  pure { name, version, settings }

/-- One extra-payload entry: an identifier string (same delimiter
split); an empty name marks an invalid entry that is skipped without
reading a payload; otherwise one byte array (32-bit element count, one
byte per element) is the payload. -/
def saveStep : DecM (Option ModSaveData) := do
  let s ← readString
  let (name, version, _) := splitMod s
  if name = [] then pure none
  else do
    let payload ← readByteArray
    pure (some { data := payload, name, version })

/-- The mod-data schedule of the specification: a 16-bit mod count and
that many mod entries; then an end-of-stream probe (save the position,
compare against the stream end, restore the exact position when not at
the end); when not at the end, a 32-bit extra-payload count (zero
meaning nothing further) and that many payload entries, invalid ones
skipped. -/
def schedule : DecM ModData := do
  let count ← readInt16
  intcD count
  let mods ← replicateD count.toNat modStep
  let atEnd ← isAtEnd
  if atEnd then pure { mods, mod_save_data := [] }
  else do
    let extraCount ← readInt32
    if extraCount = 0 then pure { mods, mod_save_data := [] }
    else do
      intcD extraCount
      let entries ← replicateD extraCount.toNat saveStep
      pure { mods, mod_save_data := entries.filterMap id }

end ModSchedule

/-! ## Concrete inputs for the round-trip and decoder-agreement checks -/

/-- A bridge edge whose GUID is the one-byte string "A". -/
def cexEdge : BridgeEdge :=
  { material_type := 1, node_a_guid := [], node_b_guid := [],
    joint_a_part := 0, joint_b_part := 0, guid := [65] }

/-- A layout at the fixed maximum layout version (26) whose bridge is at
the fixed maximum bridge version (11) and contains a single edge;
everything else is empty. -/
def cexLayout : Layout :=
  { version := 26, stubKey := [], anchors := [], phases := [],
    bridge := { version := 11, joints := [], edges := [cexEdge], springs := [],
                pistons := [], anchors := [], phases := [] },
    zAxisVehicles := [], vehicles := [], vehicleStopTriggers := [],
    themeObjects_OBSOLETE := [], eventTimelines := [], checkpoints := [],
    platforms := [], terrainStretches := [], ramps := [],
    vehicleRestartPhases := [], flyingObjects := [], rocks := [],
    waterBlocks := [],
    budget := { cash := 0, road := 0, wood := 0, steel := 0, hydraulics := 0,
                rope := 0, cable := 0, bungee_rope := 0, spring := 0,
                allow_wood := false, allow_steel := false,
                allow_hydraulics := false, allow_rope := false,
                allow_cable := false, allow_spring := false,
                allow_reinforced_road := false },
    settings := { hydraulics_controller_enabled := false, unbreakable := false },
    customShapes := [],
    workshop := { id := [], leaderboard_id := [], title := [], description := [],
                  autoplay := false, tags := [] },
    supportPillars := [], pillars := [], isModded := false,
    modData := { mods := [], mod_save_data := [] } }

/-- The bytes produced by encoding `cexLayout` from a fresh run
(`unusualNumbers = 1`). -/
def c1bytes : List Nat :=
  match Serializer.serializeLayout cexLayout 1 with
  | some (_, out, _) => out
  | none => []

/-- A version-2 bridge payload: 0 joints, 1 edge (material 0, empty
GUIDs, parts 0/0), 0 pistons, 0 phases. -/
def c2payload : List Nat :=
  [2,0,0,0] ++ [0,0,0,0] ++ [1,0,0,0] ++
  [0,0,0,0] ++ [0,0] ++ [0,0] ++ [0,0,0,0] ++ [0,0,0,0] ++
  [0,0,0,0] ++ [0,0,0,0]

/-! ## Helper lemmas -/

theorem DecM.pure_apply {α : Type} (a : α) (s : List Nat) (c : Nat) :
    (pure a : DecM α) s c = some (a, s, c) := rfl

theorem DecM.bind_some {α β : Type} {m : DecM α} {f : α → DecM β}
    {s : List Nat} {c : Nat} {a : α} {s' : List Nat} {c' : Nat}
    (h : m s c = some (a, s', c')) (s₀ : List Nat) (c₀ : Nat) :
    (s₀ = s) → (c₀ = c) → (m >>= f) s₀ c₀ = f a s' c' := by
  rintro rfl rfl
  show (match m s₀ c₀ with
        | some (a, s', c') => f a s' c'
        | none => none) = f a s' c'
  rw [h]

theorem DecM.bind_none {α β : Type} {m : DecM α} {f : α → DecM β}
    {s : List Nat} {c : Nat} (h : m s c = none) :
    (m >>= f) s c = none := by
  show (match m s c with
        | some (a, s', c') => f a s' c'
        | none => none) = none
  rw [h]

theorem DecM.bind_eq_some {α β : Type} (m : DecM α) (f : α → DecM β)
    (s : List Nat) (c : Nat) (r : β × List Nat × Nat) :
    (m >>= f) s c = some r ↔
      ∃ a s' c', m s c = some (a, s', c') ∧ f a s' c' = some r := by
  show (match m s c with
        | some (a, s', c') => f a s' c'
        | none => none) = some r ↔ _
  cases h : m s c with
  | none => simp
  | some p =>
    obtain ⟨a, s', c'⟩ := p
    constructor
    · intro hf
      exact ⟨a, s', c', rfl, hf⟩
    · rintro ⟨a₁, s₁, c₁, hm, hf⟩
      obtain ⟨rfl, rfl, rfl⟩ := by simpa using hm
      exact hf

theorem DecM.pure_bind {α β : Type} (a : α) (f : α → DecM β) :
    (pure a >>= f) = f a := rfl

theorem DecM.bind_assoc {α β γ : Type} (m : DecM α) (f : α → DecM β)
    (g : β → DecM γ) :
    ((m >>= f) >>= g) = (m >>= fun x => f x >>= g) := by
  funext s c
  show (match (match m s c with
               | some (a, s', c') => f a s' c'
               | none => none) with
        | some (b, s', c') => g b s' c'
        | none => none) =
       (match m s c with
        | some (a, s', c') => (f a >>= g) s' c'
        | none => none)
  cases m s c with
  | none => rfl
  | some p => rfl

theorem takeExact_append (l rest : List Nat) :
    takeExact l.length (l ++ rest) = some (l, rest) := by
  induction l with
  | nil => rfl
  | cons b t ih => simp [takeExact, ih]

theorem leBytes_length (k n : Nat) : (leBytes k n).length = k := by
  induction k generalizing n with
  | zero => rfl
  | succ k ih => simp [leBytes, ih]

theorem natOfLE_leBytes (k n : Nat) : natOfLE (leBytes k n) = n % 256 ^ k := by
  induction k generalizing n with
  | zero => simp [leBytes, natOfLE, Nat.mod_one]
  | succ k ih =>
    have h256 : (0:Nat) < 256 := by norm_num
    calc natOfLE (leBytes (k + 1) n)
        = n % 256 + 256 * (n / 256 % 256 ^ k) := by simp [leBytes, natOfLE, ih]
      _ = n % (256 * 256 ^ k) := (Nat.mod_mul).symm
      _ = n % 256 ^ (k + 1) := by ring_nf

theorem asInt32_toNat_emod (v : Int) (h₁ : -2147483648 ≤ v) (h₂ : v < 2147483648) :
    asInt32 (v % 4294967296).toNat = v := by
  unfold asInt32
  rcases le_or_lt 0 v with hv | hv
  · have : v % 4294967296 = v := Int.emod_eq_of_lt hv (by omega)
    rw [this]
    have hn : (v.toNat : Int) = v := Int.toNat_of_nonneg hv
    have : v.toNat < 2147483648 := by omega
    simp only [this, if_pos]
    exact hn
  · have : v % 4294967296 = v + 4294967296 := by omega
    rw [this]
    have hge : (0:Int) ≤ v + 4294967296 := by omega
    have hn : ((v + 4294967296).toNat : Int) = v + 4294967296 :=
      Int.toNat_of_nonneg hge
    have : ¬ (v + 4294967296).toNat < 2147483648 := by omega
    simp only [this, if_false]
    omega

theorem natOfLE_int32Bytes (v : Int) :
    natOfLE (int32Bytes v) = (v % 4294967296).toNat := by
  have hlt : (v % 4294967296).toNat < 4294967296 := by
    have h1 : 0 ≤ v % 4294967296 := Int.emod_nonneg v (by norm_num)
    have h2 : v % 4294967296 < 4294967296 := Int.emod_lt_of_pos v (by norm_num)
    omega
  unfold int32Bytes
  rw [natOfLE_leBytes]
  norm_num
  omega

theorem readBytes_append (l rest : List Nat) (c : Nat) :
    Deserializer.readBytes l.length (l ++ rest) c = some (l, rest, c) := by
  simp [Deserializer.readBytes, takeExact_append]

theorem readBytes_leBytes (k n : Nat) (rest : List Nat) (c : Nat) :
    Deserializer.readBytes k (leBytes k n ++ rest) c = some (leBytes k n, rest, c) := by
  have := readBytes_append (leBytes k n) rest c
  rwa [leBytes_length] at this

theorem readInt32_int32Bytes (v : Int) (rest : List Nat) (c : Nat)
    (h₁ : -2147483648 ≤ v) (h₂ : v < 2147483648) :
    Deserializer.readInt32 (int32Bytes v ++ rest) c = some (v, rest, c) := by
  unfold Deserializer.readInt32
  rw [DecM.bind_some (f := fun bs => pure (asInt32 (natOfLE bs)))
    (by simpa [int32Bytes, leBytes_length] using
      readBytes_append (int32Bytes v) rest c) _ _ rfl rfl]
  have hnat : natOfLE (leBytes 4 (v % 4294967296).toNat) = (v % 4294967296).toNat := by
    rw [natOfLE_leBytes]
    norm_num
    have h1 : 0 ≤ v % 4294967296 := Int.emod_nonneg v (by norm_num)
    have h2 : v % 4294967296 < 4294967296 := Int.emod_lt_of_pos v (by norm_num)
    omega
  simp [DecM.pure_apply, hnat, asInt32_toNat_emod v h₁ h₂]

theorem readUInt16_leBytes (n : Nat) (rest : List Nat) (c : Nat) :
    Deserializer.readUInt16 (leBytes 2 n ++ rest) c = some (n % 65536, rest, c) := by
  unfold Deserializer.readUInt16
  rw [DecM.bind_some (f := fun bs => pure (natOfLE bs)) (readBytes_leBytes 2 n rest c)
    _ _ rfl rfl]
  have : natOfLE (leBytes 2 n) = n % 65536 := by
    simpa using natOfLE_leBytes 2 n
  simp [DecM.pure_apply, this]

theorem readFloat_leBytes (p : Nat) (rest : List Nat) (c : Nat) (h : p < 4294967296) :
    Deserializer.readFloat (leBytes 4 p ++ rest) c = some (p, rest, c) := by
  unfold Deserializer.readFloat
  rw [DecM.bind_some (f := fun bs => pure (natOfLE bs)) (readBytes_leBytes 4 p rest c)
    _ _ rfl rfl]
  have : natOfLE (leBytes 4 p) = p := by
    rw [natOfLE_leBytes]
    norm_num
    omega
  simp [DecM.pure_apply, this]

theorem readString_bytes (s : Str) (rest : List Nat) (c : Nat)
    (h : s.length < 65536) :
    Deserializer.readString (leBytes 2 s.length ++ (s ++ rest)) c =
      some (s, rest, c) := by
  unfold Deserializer.readString
  rw [DecM.bind_some (f := fun length => Deserializer.readBytes length)
    (readUInt16_leBytes s.length (s ++ rest) c) _ _ rfl rfl]
  rw [Nat.mod_eq_of_lt h]
  exact readBytes_append s rest c

theorem readBool_bytes (b : Bool) (rest : List Nat) (c : Nat) :
    Deserializer.readBool ((if b then 1 else 0) :: rest) c = some (b, rest, c) := by
  cases b <;> rfl

theorem readByte_cons (b : Nat) (rest : List Nat) (c : Nat) :
    Deserializer.readByte (b :: rest) c = some (b, rest, c) := rfl

theorem SlotM.pure_ok {α : Type} (a : α) (s : List Nat) (c : Nat) :
    (pure a : SlotM α) s c = .ok (a, s, c) := rfl

theorem SlotM.bind_ok {α β : Type} {m : SlotM α} {f : α → SlotM β}
    {s : List Nat} {c : Nat} {a : α} {s' : List Nat} {c' : Nat}
    (h : m s c = .ok (a, s', c')) :
    (m >>= f) s c = f a s' c' := by
  show (match m s c with
        | .ok (a, s', c') => f a s' c'
        | .error e => .error e) = f a s' c'
  rw [h]

theorem SlotM.bind_err {α β : Type} {m : SlotM α} {f : α → SlotM β}
    {s : List Nat} {c : Nat} {e : SlotError × List Nat × Nat}
    (h : m s c = .error e) :
    (m >>= f) s c = .error e := by
  show (match m s c with
        | .ok (a, s', c') => f a s' c'
        | .error e => .error e) = .error e
  rw [h]

theorem sGet_cons (b : Nat) (rest : List Nat) (c : Nat) :
    SlotDeserializer.sGet (b :: rest) c = .ok ((b : Int), rest, c) := rfl

theorem sGet_nil (c : Nat) : SlotDeserializer.sGet [] c = .ok (-1, [], c) := rfl

theorem sReadBytes_append (l rest : List Nat) (c : Nat) :
    SlotDeserializer.sReadBytes l.length (l ++ rest) c = .ok (l, rest, c) := by
  simp [SlotDeserializer.sReadBytes, takeExact_append]

theorem slot_readInt_int32Bytes (v : Int) (rest : List Nat) (c : Nat)
    (h₁ : -2147483648 ≤ v) (h₂ : v < 2147483648) :
    SlotDeserializer.readInt (int32Bytes v ++ rest) c = .ok (v, rest, c) := by
  unfold SlotDeserializer.readInt
  rw [SlotM.bind_ok (f := fun bs => pure (asInt32 (natOfLE bs)))
    (by simpa [int32Bytes, leBytes_length] using
      sReadBytes_append (int32Bytes v) rest c)]
  have hnat : natOfLE (leBytes 4 (v % 4294967296).toNat) = (v % 4294967296).toNat := by
    rw [natOfLE_leBytes]
    norm_num
    have h1 : 0 ≤ v % 4294967296 := Int.emod_nonneg v (by norm_num)
    have h2 : v % 4294967296 < 4294967296 := Int.emod_lt_of_pos v (by norm_num)
    omega
  simp [SlotM.pure_ok, int32Bytes, hnat, asInt32_toNat_emod v h₁ h₂]

theorem takeExact_eq_some {k : Nat} {s : List Nat} {p : List Nat × List Nat}
    (h : takeExact k s = some p) : p.1.length = k ∧ s = p.1 ++ p.2 := by
  induction k generalizing s p with
  | zero =>
    simp only [takeExact, Option.some.injEq] at h
    subst h
    simp
  | succ k ih =>
    cases s with
    | nil => simp [takeExact] at h
    | cons b t =>
      simp only [takeExact, Option.map_eq_some'] at h
      obtain ⟨q, hq, hqp⟩ := h
      subst hqp
      obtain ⟨h1, h2⟩ := ih hq
      constructor
      · simpa using h1
      · simpa using h2

/-- C10 helper: a two-byte little-endian value is below 2^16. -/
theorem natOfLE_two_bytes {bs : List Nat} (hlen : bs.length = 2)
    (hb : ∀ b ∈ bs, b < 256) : natOfLE bs < 65536 := by
  match bs, hlen with
  | [a, b], _ =>
    have ha : a < 256 := hb a (by simp)
    have hbb : b < 256 := hb b (by simp)
    simp only [natOfLE]
    omega

/-- C10.  The layout-format string codec round-trips exactly the strings
shorter than 65536 bytes: `readString` reads an unsigned 16-bit length
prefix and that many bytes, so every string decoded from a genuine byte
stream has length at most 65535; `writeString` writes the length
truncated to 16 bits followed by all of the string's bytes, so strings
of length < 65536 round-trip and the 65536-byte string does not. -/
theorem string_codec_roundtrip :
    (∀ (s : Str) (rest : List Nat) (c c' : Nat), s.length < 65536 →
      ∃ out, Serializer.writeString s c = some ((), out, c) ∧
        Deserializer.readString (out ++ rest) c' = some (s, rest, c')) ∧
    (∀ (stream : List Nat) (c : Nat) (r : Str × List Nat × Nat),
      (∀ b ∈ stream, b < 256) →
      Deserializer.readString stream c = some r → r.1.length ≤ 65535) ∧
    (∃ s : Str, 65536 ≤ s.length ∧
      ∃ out, Serializer.writeString s 1 = some ((), out, 1) ∧
        ∀ r, Deserializer.readString out 1 = some r → r.1 ≠ s) := by
  refine ⟨?_, ?_, ?_⟩
  · intro s rest c c' h
    refine ⟨leBytes 2 s.length ++ s, rfl, ?_⟩
    rw [List.append_assoc]
    exact readString_bytes s rest c' h
  · intro stream c r hb h
    unfold Deserializer.readString at h
    rw [DecM.bind_eq_some] at h
    obtain ⟨len, s', c', h1, h2⟩ := h
    unfold Deserializer.readUInt16 at h1
    rw [DecM.bind_eq_some] at h1
    obtain ⟨bs, s₁, c₁, hbs, hpure⟩ := h1
    simp only [DecM.pure_apply, Option.some.injEq, Prod.mk.injEq] at hpure
    obtain ⟨rfl, rfl, rfl⟩ := hpure
    simp only [Deserializer.readBytes, Option.map_eq_some'] at hbs
    obtain ⟨p, hp, heq⟩ := hbs
    obtain ⟨rfl, rfl, rfl⟩ : bs = p.1 ∧ s₁ = p.2 ∧ c₁ = c := by
      simpa [Prod.ext_iff] using heq.symm
    obtain ⟨hplen, hsplit⟩ := takeExact_eq_some hp
    have hbsb : ∀ b ∈ p.1, b < 256 := by
      intro b hbmem
      exact hb b (by rw [hsplit]; exact List.mem_append_left _ hbmem)
    have hlt : natOfLE p.1 < 65536 := natOfLE_two_bytes hplen hbsb
    simp only [Deserializer.readBytes, Option.map_eq_some'] at h2
    obtain ⟨q, hq, hqr⟩ := h2
    obtain ⟨hqlen, _⟩ := takeExact_eq_some hq
    have : r.1 = q.1 := by
      have := congrArg (fun z => z.1) hqr
      simpa using this.symm
    rw [this, hqlen]
    omega
  · refine ⟨List.replicate 65536 0, by rw [List.length_replicate], 
      leBytes 2 (List.replicate (65536:Nat) 0).length ++ List.replicate 65536 0, rfl, ?_⟩
    intro r h
    have hlb : leBytes 2 (List.replicate (65536:Nat) 0).length = leBytes 2 0 := by
      rw [List.length_replicate]
      decide
    rw [hlb] at h
    have hread := readUInt16_leBytes 0 (List.replicate 65536 0) 1
    unfold Deserializer.readString at h
    rw [DecM.bind_some (f := fun length => Deserializer.readBytes length) hread _ _ rfl rfl] at h
    simp only [Nat.zero_mod] at h
    simp only [Deserializer.readBytes, takeExact, Option.map_some', Option.some.injEq] at h
    obtain rfl : r = ([], List.replicate 65536 0, 1) := h.symm
    show ([] : Str) ≠ List.replicate 65536 0
    intro hc
    have hl := congrArg List.length hc
    simp only [List.length_nil, List.length_replicate] at hl
    exact absurd hl (by decide)

/-- C10 witness: the round-trip at a concrete short string. -/
theorem string_codec_roundtrip_witness :
    ∃ out, Serializer.writeString [65] 2 = some ((), out, 2) ∧
      Deserializer.readString (out ++ [7]) 3 = some ([65], [7], 3) :=
  string_codec_roundtrip.1 [65] [7] 2 3 (by decide)

/-- C6 counterexample: three successive warn-band values (5000 with the
default envelope, above `warnMax = 4096` but inside the hard bounds)
are logged but never increment the offense counter and never abort, so
out-of-envelope values do not, in general, escalate to an abort after
three cumulative offenses. -/
theorem ensure_reasonable_warn_only_cex :
    (do
      let c₁ ← ensureReasonable 5000 (-1000) 10000 0 4096 1
      let c₂ ← ensureReasonable 5000 (-1000) 10000 0 4096 c₁
      ensureReasonable 5000 (-1000) 10000 0 4096 c₂) = some 1 := by
  decide

/-- C6 (amended).  Full characterisation of the sanity guard
`Utils::ensureReasonable` over the offense counter `c` (the global
`unusualNumbers`, initialised to 1): values inside the whole envelope
leave the counter unchanged and never abort; values outside the hard
`[mn, mx]` bounds increment the counter while `c < 3` and abort once
`3 ≤ c`; values in the warn band only (outside `[warnMin, warnMax]` but
inside the hard bounds) are logged without changing the counter while
`c < 3`, yet also abort once `3 ≤ c`.  Hence the third hard offense of a
run aborts, while warn-band offenses alone never do. -/
theorem ensure_reasonable_characterization
    (v mn mx wmn wmx : Int) (c : Nat) :
    (mn ≤ v → v ≤ mx → wmn ≤ v → v ≤ wmx →
      ensureReasonable v mn mx wmn wmx c = some c) ∧
    ((v < mn ∨ mx < v) → c < 3 →
      ensureReasonable v mn mx wmn wmx c = some (c + 1)) ∧
    ((v < mn ∨ mx < v ∨ v < wmn ∨ wmx < v) → 3 ≤ c →
      ensureReasonable v mn mx wmn wmx c = none) ∧
    (mn ≤ v → v ≤ mx → (v < wmn ∨ wmx < v) → c < 3 →
      ensureReasonable v mn mx wmn wmx c = some c) := by
  unfold ensureReasonable
  refine ⟨?_, ?_, ?_, ?_⟩
  · intro h1 h2 h3 h4
    split_ifs <;> first | rfl | omega
  · intro h1 h2
    split_ifs <;> first | rfl | omega
  · intro h1 h2
    split_ifs <;> first | rfl | omega
  · intro h1 h2 h3 h4
    split_ifs <;> first | rfl | omega

/-- C6 witness: a hard offense at counter 1 increments to 2. -/
theorem ensure_reasonable_characterization_witness :
    ensureReasonable 20000 (-1000) 10000 0 4096 1 = some 2 :=
  (ensure_reasonable_characterization 20000 (-1000) 10000 0 4096 1).2.1
    (Or.inr (by decide)) (by decide)

/-- C3.  Pistons: the decoder stores `fixP raw` exactly when the bridge
version is below 8 and the raw value unchanged otherwise; and over exact
arithmetic the correction `fixPistonNormalizedValue` is the three-segment
piecewise curve of the specification, with input 0.5 mapping to 0 and the
boundary inputs 0.25 / 0.75 agreeing on both adjoining branches. -/
theorem piston_decode_and_curve :
    (∀ (fixP : Nat → Nat) (version : Int) (nv : Nat) (a b g : Str)
       (rest : List Nat) (c : Nat), nv < 4294967296 →
       a.length < 65536 → b.length < 65536 → g.length < 65536 →
       Deserializer.deserializePiston fixP version
         (leBytes 4 nv ++ (leBytes 2 a.length ++ (a ++ (leBytes 2 b.length ++
           (b ++ (leBytes 2 g.length ++ (g ++ rest))))))) c =
         some ({ normalized_value := if version < 8 then fixP nv else nv,
                 node_a_guid := a, node_b_guid := b, guid := g }, rest, c)) ∧
    (∀ v : ℚ, v < 1/4 →
      fixPistonNormalizedValue v = lerp 1 (1/2) (clamp01 (v / (1/4)))) ∧
    (∀ v : ℚ, 3/4 < v →
      fixPistonNormalizedValue v = lerp (1/2) 1 (clamp01 ((v - 3/4) / (1/4)))) ∧
    (∀ v : ℚ, 1/4 ≤ v → v ≤ 3/4 →
      fixPistonNormalizedValue v = lerp 0 (1/2) (clamp01 (|v - 1/2| / (1/4)))) ∧
    fixPistonNormalizedValue (1/2) = 0 ∧
    fixPistonNormalizedValue (1/10) = lerp 1 (1/2) (clamp01 ((1/10) / (1/4))) ∧
    fixPistonNormalizedValue (9/10) = lerp (1/2) 1 (clamp01 ((9/10 - 3/4) / (1/4))) ∧
    (fixPistonNormalizedValue (1/4) = 1/2 ∧
      lerp 1 (1/2) (clamp01 ((1/4) / (1/4))) = 1/2) ∧
    (fixPistonNormalizedValue (3/4) = 1/2 ∧
      lerp (1/2) 1 (clamp01 ((3/4 - 3/4) / (1/4))) = 1/2) := by
  refine ⟨?_, ?_, ?_, ?_, ?_, ?_, ?_, ⟨?_, ?_⟩, ⟨?_, ?_⟩⟩
  · intro fixP version nv a b g rest c hnv ha hb hg
    unfold Deserializer.deserializePiston
    rw [DecM.bind_some (readFloat_leBytes nv _ c hnv) _ _ rfl rfl]
    rw [DecM.bind_some (readString_bytes a _ c ha) _ _ rfl rfl]
    rw [DecM.bind_some (readString_bytes b _ c hb) _ _ rfl rfl]
    rw [DecM.bind_some (readString_bytes g _ c hg) _ _ rfl rfl]
    split
    · next h => simp [DecM.pure_apply, if_pos h]
    · next h => simp [DecM.pure_apply, if_neg h]
  · intro v h
    rw [fixPistonNormalizedValue, if_pos h]
  · intro v h
    rw [fixPistonNormalizedValue, if_neg (by linarith), if_pos h]
  · intro v h1 h2
    rw [fixPistonNormalizedValue, if_neg (by linarith), if_neg (by linarith)]
  · norm_num [fixPistonNormalizedValue, clamp01, lerp]
  · rw [fixPistonNormalizedValue, if_pos (by norm_num)]
  · rw [fixPistonNormalizedValue, if_neg (by norm_num), if_pos (by norm_num)]
  · rw [fixPistonNormalizedValue, if_neg (by norm_num), if_neg (by norm_num)]
    rw [show |(1:ℚ)/4 - 1/2| = 1/4 by rw [abs_sub_comm]; norm_num [abs_of_nonneg]]
    norm_num [clamp01, lerp]
  · norm_num [clamp01, lerp]
  · rw [fixPistonNormalizedValue, if_neg (by norm_num), if_neg (by norm_num)]
    rw [show |(3:ℚ)/4 - 1/2| = 1/4 by norm_num [abs_of_nonneg]]
    norm_num [clamp01, lerp]
  · norm_num [clamp01, lerp]

/-- C3 witness: the decode schedule at a concrete piston record. -/
theorem piston_decode_and_curve_witness :
    Deserializer.deserializePiston (fun p => p + 1) 7
      (leBytes 4 5 ++ (leBytes 2 0 ++ ([] ++ (leBytes 2 0 ++
        ([] ++ (leBytes 2 0 ++ ([] ++ [9])))))) ) 1 =
      some ({ normalized_value := if (7:Int) < 8 then 5 + 1 else 5,
              node_a_guid := [], node_b_guid := [], guid := [] }, [9], 1) :=
  piston_decode_and_curve.1 (fun p => p + 1) 7 5 [] [] [] [9] 1
    (by decide) (by decide) (by decide) (by decide)

/-- C8.  A negative leading raw version is negated and flags the layout
as modded (−7 decodes to version 7 with the flag set, a non-negative raw
version leaves it false); the decoded layout's version and modded flag
are exactly the ones produced by `getVersion` on the leading int; a
layout decoded without the flag has the empty mod-data block, and one
decoded with the flag carries exactly the result of the trailing
`deserializePTFModData` run. -/
theorem version_sign_and_mod_block :
    (∀ (v : Int) (rest : List Nat) (c : Nat),
      -2147483648 ≤ v → v < 2147483648 →
      Deserializer.getVersion (int32Bytes v ++ rest) c =
        some (if v < 0 then (-v, true) else (v, false), rest, c)) ∧
    Deserializer.getVersion (int32Bytes (-7) ++ []) 1 = some ((7, true), [], 1) ∧
    (∀ (fixP : Nat → Nat) (s : List Nat) (c : Nat) (l : Layout)
       (r : List Nat) (c' : Nat),
      Deserializer.deserializeLayout fixP s c = some (l, r, c') →
      (l.isModded = false → l.modData = { mods := [], mod_save_data := [] }) ∧
      (∃ v s₁ c₁, Deserializer.getVersion s c = some ((v, l.isModded), s₁, c₁) ∧
        l.version = v) ∧
      (l.isModded = true → ∃ s₂ c₂,
        Deserializer.deserializePTFModData s₂ c₂ = some (l.modData, r, c'))) := by
  refine ⟨?_, ?_, ?_⟩
  · intro v rest c h₁ h₂
    unfold Deserializer.getVersion
    rw [DecM.bind_some (readInt32_int32Bytes v rest c h₁ h₂) _ _ rfl rfl]
    split
    · next h => simp [DecM.pure_apply, if_pos h]
    · next h => simp [DecM.pure_apply, if_neg h]
  · unfold Deserializer.getVersion
    rw [DecM.bind_some (readInt32_int32Bytes (-7) [] 1 (by norm_num) (by norm_num))
      _ _ rfl rfl]
    rfl
  · intro fixP s c l r c' h
    simp only [Deserializer.deserializeLayout, DecM.bind_eq_some] at h
    obtain ⟨⟨v, m⟩, s1, c1, hg, u1, s2, c2, h1, u2, s3, c3, h2,
      stub, s4, c4, h3, anch, s5, c5, h4, ph1, s6, c6, h5, br, s7, c7, h6,
      zax, s8, c8, h7, veh, s9, c9, h8, vst, s10, c10, h9, tho, s11, c11, h10,
      evt, s12, c12, h11, chk, s13, c13, h12, ter, s14, c14, h13,
      plat, s15, c15, h14, ram, s16, c16, h15, ph2, s17, c17, h16,
      vrp, s18, c18, h17, fly, s19, c19, h18, roc, s20, c20, h19,
      wat, s21, c21, h20, gar, s22, c22, h21, bud, s23, c23, h22,
      set, s24, c24, h23, cus, s25, c25, h24, wor, s26, c26, h25,
      sup, s27, c27, h26, pil, s28, c28, h27, hfin⟩ := h
    cases m with
    | false =>
      simp only [Bool.false_eq_true, if_false, DecM.pure_apply,
        Option.some.injEq, Prod.mk.injEq] at hfin
      obtain ⟨hl, hr, hc⟩ := hfin
      subst hl
      refine ⟨fun _ => rfl, ⟨v, s1, c1, hg, rfl⟩, fun hcontra => ?_⟩
      simp at hcontra
    | true =>
      simp only [if_true, DecM.bind_eq_some] at hfin
      obtain ⟨md, s29, c29, hptf, hpure⟩ := hfin
      simp only [DecM.pure_apply, Option.some.injEq, Prod.mk.injEq] at hpure
      obtain ⟨hl, hr, hc⟩ := hpure
      subst hl
      subst hr
      subst hc
      exact ⟨fun hcontra => by simp at hcontra,
        ⟨v, s1, c1, hg, rfl⟩,
        fun _ => ⟨s28, c28, hptf⟩⟩

/-- C5.  After the root node is entered, the slot decoder's first field
read observes one tagged entry and asserts its schema identity; if the
observed entry's name is not "m_Version", decoding stops with a failed
schema assertion whose recorded position is exactly the input following
that entry — no bytes beyond the offending entry are consumed
(whether the type assert or the name assert is the one that fires). -/
theorem slot_first_entry_schema_assert (fixP : Nat → Nat)
    (b₁ b₂ rest : List Nat) (c : Nat) (et : EntryTypeReturn)
    (h1 : ∀ t, SlotDeserializer.enterNode (b₁ ++ t) c = .ok ((), t, c))
    (h2 : ∀ t, SlotDeserializer.peekEntryType (b₂ ++ t) c = .ok (et, t, c))
    (h3 : et.name ≠ strBytes "m_Version") :
    SlotDeserializer.deserializeSlot fixP (b₁ ++ (b₂ ++ rest)) c =
      .error (SlotError.assertFailed, rest, c) := by
  unfold SlotDeserializer.deserializeSlot
  rw [SlotM.bind_ok (h1 (b₂ ++ rest))]
  rw [SlotM.bind_ok (h2 rest)]
  have hname : (et.name == strBytes "m_Version") = false := by
    simpa using h3
  cases hT : (et.type == EntryType.Integer) with
  | false =>
    apply SlotM.bind_err
    simp [SlotDeserializer.sAssert, hT]
  | true =>
    rw [SlotM.bind_ok (show SlotDeserializer.sAssert true rest c = .ok ((), rest, c)
      from rfl)]
    apply SlotM.bind_err
    simp [SlotDeserializer.sAssert, hname]

/-- C5 witness: a stream whose root node (unnamed reference node,
TypeID descriptor, node id 0) is followed by a named int entry "A"
fails with the schema assertion leaving exactly the trailing bytes. -/
theorem slot_first_entry_schema_assert_witness :
    SlotDeserializer.deserializeSlot id
      ([2, 48, 0, 0, 0, 0] ++ ([23, 0, 1, 0, 0, 0, 65] ++ [250])) 1 =
      .error (SlotError.assertFailed, [250], 1) :=
  slot_first_entry_schema_assert id [2, 48, 0, 0, 0, 0] [23, 0, 1, 0, 0, 0, 65]
    [250] 1 { type := EntryType.Integer, name := [65] }
    (fun t => rfl) (fun t => rfl) (by decide)

/-- C9.  The save-slot string reader: end-of-stream at the discriminant
yields the empty string; discriminant 0 selects UTF-8 and returns the
bytes after a 32-bit byte-length prefix; discriminant 1 selects UTF-16,
reading a 32-bit code-unit-length prefix and little-endian 16-bit units
that are converted to UTF-8; any other discriminant yields the empty
string, consuming only the discriminant byte. -/
theorem slot_string_reader :
    (∀ c : Nat, SlotDeserializer.readString [] c = .ok ([], [], c)) ∧
    (∀ (n : Int) (bytes rest : List Nat) (c : Nat),
      0 ≤ n → n < 2147483648 → bytes.length = n.toNat →
      SlotDeserializer.readString (0 :: (int32Bytes n ++ (bytes ++ rest))) c =
        .ok (bytes, rest, c)) ∧
    (∀ (n : Int) (raw rest : List Nat) (c : Nat) (cps : List Nat),
      0 ≤ n → n < 2147483648 → raw.length = 2 * n.toNat →
      utf16ToCodepoints (pairUnits raw) = some cps →
      SlotDeserializer.readString (1 :: (int32Bytes n ++ (raw ++ rest))) c =
        .ok (cps.flatMap utf8Encode, rest, c)) ∧
    (∀ (b : Nat) (rest : List Nat) (c : Nat), 2 ≤ b →
      SlotDeserializer.readString (b :: rest) c = .ok ([], rest, c)) := by
  refine ⟨?_, ?_, ?_, ?_⟩
  · intro c
    rfl
  · intro n bytes rest c h0 h1 hlen
    unfold SlotDeserializer.readString
    rw [SlotM.bind_ok (sGet_cons 0 _ c)]
    norm_num
    rw [SlotM.bind_ok (slot_readInt_int32Bytes n (bytes ++ rest) c (by omega) h1)]
    unfold SlotDeserializer.sReadBytesI
    rw [if_neg (by omega)]
    have : SlotDeserializer.sReadBytes n.toNat (bytes ++ rest) c = .ok (bytes, rest, c) := by
      rw [← hlen]
      exact sReadBytes_append bytes rest c
    rw [SlotM.bind_ok this]
    rfl
  · intro n raw rest c cps h0 h1 hlen hconv
    unfold SlotDeserializer.readString
    rw [SlotM.bind_ok (sGet_cons 1 _ c)]
    norm_num
    rw [SlotM.bind_ok (slot_readInt_int32Bytes n (raw ++ rest) c (by omega) h1)]
    unfold SlotDeserializer.sReadBytesI
    rw [if_neg (by omega)]
    have hlen2 : (2 * n).toNat = raw.length := by omega
    have : SlotDeserializer.sReadBytes (2 * n).toNat (raw ++ rest) c = .ok (raw, rest, c) := by
      rw [hlen2]
      exact sReadBytes_append raw rest c
    rw [SlotM.bind_ok this, hconv]
    rfl
  · intro b rest c hb
    unfold SlotDeserializer.readString
    rw [SlotM.bind_ok (sGet_cons b rest c)]
    rw [if_neg (by omega), if_neg (by omega), if_neg (by omega)]
    rfl

/-- C9 witness: the UTF-8 branch at one byte, the UTF-16 branch at one
unit (0x41 → "A"), and an unknown discriminant. -/
theorem slot_string_reader_witness :
    SlotDeserializer.readString (0 :: (int32Bytes 1 ++ ([65] ++ [9]))) 1 =
      .ok ([65], [9], 1) ∧
    SlotDeserializer.readString (1 :: (int32Bytes 1 ++ ([65, 0] ++ [9]))) 1 =
      .ok ([65], [9], 1) ∧
    SlotDeserializer.readString (7 :: [3]) 1 = .ok ([], [3], 1) :=
  ⟨slot_string_reader.2.1 1 [65] [9] 1 (by decide) (by decide) (by decide),
   by
     have := slot_string_reader.2.2.1 1 [65, 0] [9] 1 [65]
       (by decide) (by decide) (by decide) (by decide)
     simpa using this,
   slot_string_reader.2.2.2 7 [3] 1 (by decide)⟩

/-- C1.  Decode-after-encode is not the identity on max-version layouts:
the serializer writes bridge version 11 but never writes the per-edge
GUID that the decoder reads from version 11 on, so encoding `cexLayout`
(layout version 26, bridge version 11, one edge) and decoding the
resulting bytes fails outright instead of returning the layout. -/
theorem layout_roundtrip_fails_on_edges :
    cexLayout.version = MAX_VERSION ∧
    cexLayout.bridge.version = MAX_BRIDGE_VERSION ∧
    Serializer.serializeLayout cexLayout 1 = some ((), c1bytes, 1) ∧
    Deserializer.deserializeLayout id c1bytes 1 = none ∧
    Deserializer.deserializeLayout id c1bytes 1 ≠ some (cexLayout, [], 1) := by
  set_option maxRecDepth 4000 in decide

/-- C2.  The two bridge decoders disagree on the same payload: on a
version-2 payload with one edge, the layout-path decoder stores the
edge, while the save-slot-path decoder parses and discards it (it never
pushes edges or hydraulics phases into the bridge it returns). -/
theorem bridge_decoders_disagree :
    Deserializer.deserializeBridge id c2payload 1 =
      some ({ version := 2, joints := [],
              edges := [{ material_type := 0, node_a_guid := [], node_b_guid := [],
                          joint_a_part := 0, joint_b_part := 0, guid := [] }],
              springs := [], pistons := [], anchors := [], phases := [] }, [], 1) ∧
    SimpleBridge.deserializeBridge id c2payload 1 =
      some ({ version := 2, joints := [], edges := [], springs := [],
              pistons := [], anchors := [], phases := [] }, [], 1) ∧
    Deserializer.deserializeBridge id c2payload 1 ≠
      SimpleBridge.deserializeBridge id c2payload 1 := by
  decide

/-- C8 witness: raw −7 at a concrete stream decodes to (7, modded). -/
theorem version_sign_and_mod_block_witness :
    Deserializer.getVersion (int32Bytes (-7) ++ [9]) 2 = some ((7, true), [9], 2) := by
  have := version_sign_and_mod_block.1 (-7) [9] 2 (by decide) (by decide)
  simpa using this

theorem edgeStep_eq : BridgeSchedule.edgeStep = Deserializer.deserializeEdge := rfl

theorem phaseStep_eq (v : Int) :
    BridgeSchedule.phaseStep v = Deserializer.deserializeHydraulicControllerPhase v := by
  unfold BridgeSchedule.phaseStep Deserializer.deserializeHydraulicControllerPhase
    BridgeSchedule.readCountedRaw
  simp only [DecM.bind_assoc]

/-- C4.  The bridge decoder follows the version-gated field schedule of
the specification exactly: it equals, as a function of the input stream
and counter, the schedule parser built from the gated steps (empty
bridge below version 2 with no further bytes consumed; joints; edges
with a GUID only from version 11; springs only from version 7; pistons;
phases with split-joint records above version 2, else discarded strings,
and a trailing boolean above version 9; a discarded string block exactly
at version 5; anchors only from version 6; one discarded boolean exactly
for versions 4-8). -/
theorem bridge_decode_matches_schedule (fixP : Nat → Nat) :
    Deserializer.deserializeBridge fixP = BridgeSchedule.schedule fixP := by
  unfold Deserializer.deserializeBridge BridgeSchedule.schedule
  simp only [BridgeSchedule.readCounted, BridgeSchedule.readCountedRaw,
    edgeStep_eq, phaseStep_eq, DecM.bind_assoc]

/-- C7.  The mod-data decoder follows the specification's schedule
exactly: it equals, as a function of the input stream and counter, the
schedule parser (16-bit mod count; per-mod delimiter split into up to
three parts with empty defaults; the end-of-stream probe that saves the
position, compares against the stream end and restores the exact saved
position when not at the end; then a 32-bit extra-payload count, with
empty-name entries skipped and each valid entry reading one byte array
of a 32-bit element count, one byte per element). -/
theorem mod_data_matches_schedule :
    Deserializer.deserializePTFModData = ModSchedule.schedule := by
  unfold Deserializer.deserializePTFModData ModSchedule.schedule
  simp only [ModSchedule.modStep, ModSchedule.saveStep, ModSchedule.splitMod,
    DecM.bind_assoc]
